import Mathlib

/-
Verification development for the Voice Live session relay
(`backend/voice_live_client.py`).

Part 1 models the pure SDP codec helpers `_encode_client_sdp` and
`_decode_server_sdp`, together with the pieces of the Python standard
library they rely on (`base64.b64encode`/`b64decode`, `str.encode("utf-8")`
and `bytes.decode("utf-8")`, `json.dumps` with its default
`ensure_ascii=True` escaping, and `json.loads` on the envelope grammar).

Part 2 models the session object (`VoiceLiveSession`): its state, the
broadcast fan-out, the `_send`/`connect` pair, the receive-loop event
dispatch, and a small-step machine for the `connect_avatar` /
`disconnect_avatar` coroutines, in which the claims about avatar
negotiation are settled.

Modeling conventions: Python `str` is Lean `String` (a list of Unicode
scalar values); `bytes` is `List Nat` with each entry < 256; fallible
operations return `Option`/`Except`.
-/

/-! ### Base64 (model of Python `base64.b64encode` / `b64decode`)

`b64e` encodes a byte list into the standard base64 alphabet with `=`
padding, exactly as `base64.b64encode`.  `b64d` is the decoder on
well-formed base64 text (the only inputs any theorem evaluates it on);
Python's lenient non-alphabet-skipping behaviour for `b64decode` on
malformed input is not reproduced. -/

def b64CharOf (n : Nat) : Char :=
  if n < 26 then Char.ofNat (65 + n)
  else if n < 52 then Char.ofNat (97 + (n - 26))
  else if n < 62 then Char.ofNat (48 + (n - 52))
  else if n = 62 then '+'
  else '/'

def b64ValOf (c : Char) : Option Nat :=
  if 'A' ≤ c ∧ c ≤ 'Z' then some (c.toNat - 65)
  else if 'a' ≤ c ∧ c ≤ 'z' then some (c.toNat - 97 + 26)
  else if '0' ≤ c ∧ c ≤ '9' then some (c.toNat - 48 + 52)
  else if c = '+' then some 62
  else if c = '/' then some 63
  else none

def b64e : List Nat → List Char
  | [] => []
  | [a] => [b64CharOf (a / 4), b64CharOf (a % 4 * 16), '=', '=']
  | [a, b] => [b64CharOf (a / 4), b64CharOf (a % 4 * 16 + b / 16), b64CharOf (b % 16 * 4), '=']
  | a :: b :: c :: rest =>
      b64CharOf (a / 4) :: b64CharOf (a % 4 * 16 + b / 16) ::
      b64CharOf (b % 16 * 4 + c / 64) :: b64CharOf (c % 64) :: b64e rest

def b64d : List Char → Option (List Nat)
  | [] => some []
  | c1 :: c2 :: c3 :: c4 :: rest =>
    match b64ValOf c1, b64ValOf c2 with
    | some v1, some v2 =>
      if c3 = '=' then
        if c4 = '=' ∧ rest = [] then some [v1 * 4 + v2 / 16] else none
      else
        match b64ValOf c3 with
        | some v3 =>
          if c4 = '=' then
            if rest = [] then some [v1 * 4 + v2 / 16, v2 % 16 * 16 + v3 / 4] else none
          else
            match b64ValOf c4, b64d rest with
            | some v4, some tail =>
                some ((v1 * 4 + v2 / 16) :: (v2 % 16 * 16 + v3 / 4) :: (v3 % 4 * 64 + v4) :: tail)
            | _, _ => none
        | none => none
    | _, _ => none
  | _ => none

theorem b64ValOf_b64CharOf (n : Nat) (h : n < 64) : b64ValOf (b64CharOf n) = some n := by
  interval_cases n <;> decide

theorem b64CharOf_ne_eq (n : Nat) (h : n < 64) : (b64CharOf n = '=') = False := by
  interval_cases n <;> decide

theorem b64_roundtrip : ∀ bs : List Nat, (∀ b ∈ bs, b < 256) → b64d (b64e bs) = some bs := by
  intro bs
  induction bs using b64e.induct with
  | case1 => intro _; rfl
  | case2 a =>
    intro h
    have ha : a < 256 := h a (by simp)
    have e1 := b64ValOf_b64CharOf (a / 4) (by omega)
    have e2 := b64ValOf_b64CharOf (a % 4 * 16) (by omega)
    simp only [b64e, b64d, e1, e2, if_pos rfl, and_self, if_true, Option.some.injEq,
      List.cons.injEq, and_true, List.nil_eq, eq_self_iff_true, true_and]
    omega
  | case3 a b =>
    intro h
    have ha : a < 256 := h a (by simp)
    have hb : b < 256 := h b (by simp)
    have e1 := b64ValOf_b64CharOf (a / 4) (by omega)
    have e2 := b64ValOf_b64CharOf (a % 4 * 16 + b / 16) (by omega)
    have e3 := b64ValOf_b64CharOf (b % 16 * 4) (by omega)
    have n3 := b64CharOf_ne_eq (b % 16 * 4) (by omega)
    simp only [b64e, b64d, e1, e2, e3, n3, if_false, if_pos rfl, if_true, Option.some.injEq,
      List.cons.injEq, and_true, eq_self_iff_true, true_and]
    omega
  | case4 a b c rest ih =>
    intro h
    have ha : a < 256 := h a (by simp)
    have hb : b < 256 := h b (by simp)
    have hc : c < 256 := h c (by simp)
    have htail : ∀ x ∈ rest, x < 256 := fun x hx => h x (by simp [hx])
    have e1 := b64ValOf_b64CharOf (a / 4) (by omega)
    have e2 := b64ValOf_b64CharOf (a % 4 * 16 + b / 16) (by omega)
    have e3 := b64ValOf_b64CharOf (b % 16 * 4 + c / 64) (by omega)
    have e4 := b64ValOf_b64CharOf (c % 64) (by omega)
    have n3 := b64CharOf_ne_eq (b % 16 * 4 + c / 64) (by omega)
    have n4 := b64CharOf_ne_eq (c % 64) (by omega)
    simp only [b64e, b64d, e1, e2, e3, e4, n3, n4, if_false, ih htail, Option.some.injEq,
      List.cons.injEq, and_true]
    omega

/-! ### UTF-8 (model of Python `str.encode("utf-8")` / `bytes.decode("utf-8")`)

Encoding is the standard 1-to-4-byte scheme for every Unicode scalar
value.  The decoder handles well-formed sequences; Python's rejection of
overlong encodings on malformed input is not reproduced (no theorem
evaluates the decoder on malformed bytes). -/

def utf8Char (c : Char) : List Nat :=
  if c.toNat < 0x80 then [c.toNat]
  else if c.toNat < 0x800 then [0xC0 + c.toNat / 64, 0x80 + c.toNat % 64]
  else if c.toNat < 0x10000 then
    [0xE0 + c.toNat / 4096, 0x80 + c.toNat / 64 % 64, 0x80 + c.toNat % 64]
  else
    [0xF0 + c.toNat / 262144, 0x80 + c.toNat / 4096 % 64, 0x80 + c.toNat / 64 % 64,
      0x80 + c.toNat % 64]

def utf8EncodeL : List Char → List Nat
  | [] => []
  | c :: cs => utf8Char c ++ utf8EncodeL cs

def utf8DecodeF : Nat → List Nat → Option (List Char)
  | 0, _ => none
  | _ + 1, [] => some []
  | fuel + 1, b :: bs =>
    if b < 0x80 then
      match utf8DecodeF fuel bs with
      | some cs => some (Char.ofNat b :: cs)
      | none => none
    else if b < 0xC0 then none
    else if b < 0xE0 then
      match bs with
      | b2 :: bs2 =>
        if 0x80 ≤ b2 ∧ b2 < 0xC0 then
          match utf8DecodeF fuel bs2 with
          | some cs => some (Char.ofNat ((b - 0xC0) * 64 + (b2 - 0x80)) :: cs)
          | none => none
        else none
      | [] => none
    else if b < 0xF0 then
      match bs with
      | b2 :: b3 :: bs2 =>
        if (0x80 ≤ b2 ∧ b2 < 0xC0) ∧ (0x80 ≤ b3 ∧ b3 < 0xC0) then
          match utf8DecodeF fuel bs2 with
          | some cs =>
              some (Char.ofNat ((b - 0xE0) * 4096 + (b2 - 0x80) * 64 + (b3 - 0x80)) :: cs)
          | none => none
        else none
      | _ => none
    else if b < 0xF8 then
      match bs with
      | b2 :: b3 :: b4 :: bs2 =>
        if (0x80 ≤ b2 ∧ b2 < 0xC0) ∧ (0x80 ≤ b3 ∧ b3 < 0xC0) ∧ (0x80 ≤ b4 ∧ b4 < 0xC0) then
          match utf8DecodeF fuel bs2 with
          | some cs =>
              some (Char.ofNat ((b - 0xF0) * 262144 + (b2 - 0x80) * 4096 + (b3 - 0x80) * 64 +
                (b4 - 0x80)) :: cs)
          | none => none
        else none
      | _ => none
    else none

def utf8DecodeL (l : List Nat) : Option (List Char) :=
  utf8DecodeF (l.length + 1) l

theorem char_valid_cases (c : Char) :
    c.toNat < 0xD800 ∨ (0xE000 ≤ c.toNat ∧ c.toNat < 0x110000) := by
  have h := c.valid
  rcases h with h | ⟨h1, h2⟩
  · exact Or.inl h
  · exact Or.inr ⟨h1, h2⟩

theorem utf8Char_lt_256 (c : Char) : ∀ b ∈ utf8Char c, b < 256 := by
  intro b hb
  have hv := char_valid_cases c
  unfold utf8Char at hb
  split at hb
  · simp at hb; omega
  · split at hb
    · simp at hb; rcases hb with h | h <;> omega
    · split at hb
      · simp at hb; rcases hb with h | h | h <;> omega
      · simp at hb; rcases hb with h | h | h | h <;> omega

theorem utf8EncodeL_lt_256 : ∀ l : List Char, ∀ b ∈ utf8EncodeL l, b < 256 := by
  intro l
  induction l with
  | nil => intro b hb; simp [utf8EncodeL] at hb
  | cons c cs ih =>
    intro b hb
    simp only [utf8EncodeL, List.mem_append] at hb
    rcases hb with hb | hb
    · exact utf8Char_lt_256 c b hb
    · exact ih b hb

theorem utf8DecodeF_encode_ascii (l : List Char) :
    ∀ f : Nat, (∀ c ∈ l, c.toNat < 0x80) → l.length < f →
      utf8DecodeF f (utf8EncodeL l) = some l := by
  induction l with
  | nil =>
    intro f _ hf
    match f, hf with
    | f + 1, _ => rfl
  | cons c cs ih =>
    intro f h hf
    match f, hf with
    | f + 1, hf =>
    have hc : c.toNat < 0x80 := h c (by simp)
    have ihc := ih f (fun d hd => h d (by simp [hd])) (by simpa using hf)
    have henc : utf8Char c = [c.toNat] := by rw [utf8Char, if_pos hc]
    simp only [utf8EncodeL, henc, List.cons_append, List.nil_append]
    simp only [utf8DecodeF, if_pos hc, ihc, Char.ofNat_toNat]

theorem utf8_roundtrip_ascii (l : List Char) (h : ∀ c ∈ l, c.toNat < 0x80) :
    utf8DecodeL (utf8EncodeL l) = some l := by
  have hlen : l.length ≤ (utf8EncodeL l).length := by
    clear h
    induction l with
    | nil => simp [utf8EncodeL]
    | cons c cs ih =>
      have h1 : 1 ≤ (utf8Char c).length := by
        rw [utf8Char]
        split
        · simp
        · split
          · simp
          · split
            · simp
            · simp
      simp only [utf8EncodeL, List.length_append, List.length_cons]
      omega
  exact utf8DecodeF_encode_ascii l _ h (by omega)

/-! ### JSON string escaping (model of `json.dumps` with `ensure_ascii=True`)

`escChar` reproduces CPython's `py_encode_basestring_ascii`: quote and
backslash get two-character escapes, the five classic control characters
get their short escapes, all other characters outside `0x20..0x7E` are
`\uXXXX`-escaped (lowercase hex, surrogate pairs above `0xFFFF`), and
printable ASCII passes through. -/

def hexCharOf (n : Nat) : Char :=
  if n < 10 then Char.ofNat (48 + n) else Char.ofNat (87 + n)

def hexValOf (c : Char) : Option Nat :=
  if '0' ≤ c ∧ c ≤ '9' then some (c.toNat - 48)
  else if 'a' ≤ c ∧ c ≤ 'f' then some (c.toNat - 97 + 10)
  else if 'A' ≤ c ∧ c ≤ 'F' then some (c.toNat - 65 + 10)
  else none

theorem hexValOf_hexCharOf (n : Nat) (h : n < 16) : hexValOf (hexCharOf n) = some n := by
  interval_cases n <;> decide

def hex4 (a b c d : Char) : Option Nat :=
  match hexValOf a, hexValOf b, hexValOf c, hexValOf d with
  | some x, some y, some z, some w => some (x * 4096 + y * 256 + z * 16 + w)
  | _, _, _, _ => none

def uEsc (n : Nat) : List Char :=
  ['\\', 'u', hexCharOf (n / 4096 % 16), hexCharOf (n / 256 % 16), hexCharOf (n / 16 % 16),
    hexCharOf (n % 16)]

theorem hex4_uEsc (n : Nat) (h : n < 0x10000) :
    hex4 (hexCharOf (n / 4096 % 16)) (hexCharOf (n / 256 % 16)) (hexCharOf (n / 16 % 16))
      (hexCharOf (n % 16)) = some n := by
  rw [hex4, hexValOf_hexCharOf _ (by omega), hexValOf_hexCharOf _ (by omega),
    hexValOf_hexCharOf _ (by omega), hexValOf_hexCharOf _ (by omega)]
  simp only [Option.some.injEq]
  omega

def escChar (c : Char) : List Char :=
  if c = '"' then ['\\', '"']
  else if c = '\\' then ['\\', '\\']
  else if c = '\x08' then ['\\', 'b']
  else if c = '\t' then ['\\', 't']
  else if c = '\n' then ['\\', 'n']
  else if c = '\x0c' then ['\\', 'f']
  else if c = '\r' then ['\\', 'r']
  else if c.toNat < 0x20 then uEsc c.toNat
  else if c.toNat < 0x7f then [c]
  else if c.toNat < 0x10000 then uEsc c.toNat
  else uEsc (0xD800 + (c.toNat - 0x10000) / 0x400) ++ uEsc (0xDC00 + (c.toNat - 0x10000) % 0x400)

def escList : List Char → List Char
  | [] => []
  | c :: cs => escChar c ++ escList cs

theorem hexCharOf_ascii (n : Nat) (h : n < 16) : (hexCharOf n).toNat < 128 := by
  interval_cases n <;> decide

theorem uEsc_ascii (n : Nat) (h : n < 0x10000) : ∀ d ∈ uEsc n, d.toNat < 128 := by
  intro d hd
  simp only [uEsc, List.mem_cons, List.not_mem_nil, or_false] at hd
  rcases hd with h1 | h1 | h1 | h1 | h1 | h1 <;> subst h1
  · decide
  · decide
  · exact hexCharOf_ascii _ (by omega)
  · exact hexCharOf_ascii _ (by omega)
  · exact hexCharOf_ascii _ (by omega)
  · exact hexCharOf_ascii _ (by omega)

theorem escChar_cases (c : Char) :
    escChar c = ['\\', '"'] ∨ escChar c = ['\\', '\\'] ∨ escChar c = ['\\', 'b'] ∨
    escChar c = ['\\', 't'] ∨ escChar c = ['\\', 'n'] ∨ escChar c = ['\\', 'f'] ∨
    escChar c = ['\\', 'r'] ∨
    (c.toNat < 0x10000 ∧ escChar c = uEsc c.toNat) ∨
    (0x20 ≤ c.toNat ∧ c.toNat < 0x7f ∧ escChar c = [c]) ∨
    (0x10000 ≤ c.toNat ∧ c.toNat < 0x110000 ∧
      escChar c = uEsc (0xD800 + (c.toNat - 0x10000) / 0x400) ++
        uEsc (0xDC00 + (c.toNat - 0x10000) % 0x400)) := by
  have hv := char_valid_cases c
  by_cases h1 : c = '"'
  · exact Or.inl (by rw [escChar, if_pos h1])
  by_cases h2 : c = '\\'
  · exact Or.inr (Or.inl (by rw [escChar, if_neg h1, if_pos h2]))
  by_cases h3 : c = '\x08'
  · exact Or.inr (Or.inr (Or.inl (by rw [escChar, if_neg h1, if_neg h2, if_pos h3])))
  by_cases h4 : c = '\t'
  · exact Or.inr (Or.inr (Or.inr (Or.inl (by
      rw [escChar, if_neg h1, if_neg h2, if_neg h3, if_pos h4]))))
  by_cases h5 : c = '\n'
  · exact Or.inr (Or.inr (Or.inr (Or.inr (Or.inl (by
      rw [escChar, if_neg h1, if_neg h2, if_neg h3, if_neg h4, if_pos h5])))))
  by_cases h6 : c = '\x0c'
  · exact Or.inr (Or.inr (Or.inr (Or.inr (Or.inr (Or.inl (by
      rw [escChar, if_neg h1, if_neg h2, if_neg h3, if_neg h4, if_neg h5, if_pos h6]))))))
  by_cases h7 : c = '\r'
  · exact Or.inr (Or.inr (Or.inr (Or.inr (Or.inr (Or.inr (Or.inl (by
      rw [escChar, if_neg h1, if_neg h2, if_neg h3, if_neg h4, if_neg h5, if_neg h6,
        if_pos h7])))))))
  by_cases h8 : c.toNat < 0x20
  · refine Or.inr (Or.inr (Or.inr (Or.inr (Or.inr (Or.inr (Or.inr (Or.inl ⟨by omega, ?_⟩)))))))
    rw [escChar, if_neg h1, if_neg h2, if_neg h3, if_neg h4, if_neg h5, if_neg h6, if_neg h7,
      if_pos h8]
  by_cases h9 : c.toNat < 0x7f
  · refine Or.inr (Or.inr (Or.inr (Or.inr (Or.inr (Or.inr (Or.inr (Or.inr (Or.inl
      ⟨by omega, by omega, ?_⟩))))))))
    rw [escChar, if_neg h1, if_neg h2, if_neg h3, if_neg h4, if_neg h5, if_neg h6, if_neg h7,
      if_neg h8, if_pos h9]
  by_cases h10 : c.toNat < 0x10000
  · refine Or.inr (Or.inr (Or.inr (Or.inr (Or.inr (Or.inr (Or.inr (Or.inl ⟨by omega, ?_⟩)))))))
    rw [escChar, if_neg h1, if_neg h2, if_neg h3, if_neg h4, if_neg h5, if_neg h6, if_neg h7,
      if_neg h8, if_neg h9, if_pos h10]
  · refine Or.inr (Or.inr (Or.inr (Or.inr (Or.inr (Or.inr (Or.inr (Or.inr (Or.inr
      ⟨by omega, by omega, ?_⟩))))))))
    rw [escChar, if_neg h1, if_neg h2, if_neg h3, if_neg h4, if_neg h5, if_neg h6, if_neg h7,
      if_neg h8, if_neg h9, if_neg h10]

theorem escChar_ascii (c : Char) : ∀ d ∈ escChar c, d.toNat < 128 := by
  intro d hd
  rcases escChar_cases c with h | h | h | h | h | h | h | ⟨hb, h⟩ | ⟨hb1, hb2, h⟩ |
    ⟨hb1, hb2, h⟩ <;> rw [h] at hd
  · simp only [List.mem_cons, List.not_mem_nil, or_false] at hd
    rcases hd with h1 | h1 <;> (subst h1; decide)
  · simp only [List.mem_cons, List.not_mem_nil, or_false] at hd
    rcases hd with h1 | h1 <;> (subst h1; decide)
  · simp only [List.mem_cons, List.not_mem_nil, or_false] at hd
    rcases hd with h1 | h1 <;> (subst h1; decide)
  · simp only [List.mem_cons, List.not_mem_nil, or_false] at hd
    rcases hd with h1 | h1 <;> (subst h1; decide)
  · simp only [List.mem_cons, List.not_mem_nil, or_false] at hd
    rcases hd with h1 | h1 <;> (subst h1; decide)
  · simp only [List.mem_cons, List.not_mem_nil, or_false] at hd
    rcases hd with h1 | h1 <;> (subst h1; decide)
  · simp only [List.mem_cons, List.not_mem_nil, or_false] at hd
    rcases hd with h1 | h1 <;> (subst h1; decide)
  · exact uEsc_ascii _ hb d hd
  · simp only [List.mem_cons, List.not_mem_nil, or_false] at hd
    subst hd
    omega
  · rcases List.mem_append.mp hd with h1 | h1
    · exact uEsc_ascii _ (by omega) d h1
    · exact uEsc_ascii _ (by omega) d h1

theorem escList_ascii : ∀ l : List Char, ∀ d ∈ escList l, d.toNat < 128 := by
  intro l
  induction l with
  | nil => intro d hd; simp [escList] at hd
  | cons c cs ih =>
    intro d hd
    simp only [escList, List.mem_append] at hd
    rcases hd with hd | hd
    · exact escChar_ascii c d hd
    · exact ih d hd

theorem escChar_length_pos (c : Char) : 1 ≤ (escChar c).length := by
  rcases escChar_cases c with h | h | h | h | h | h | h | ⟨_, h⟩ | ⟨_, _, h⟩ |
    ⟨_, _, h⟩ <;> simp [h, uEsc]

theorem escList_length_ge : ∀ l : List Char, l.length ≤ (escList l).length := by
  intro l
  induction l with
  | nil => simp [escList]
  | cons c cs ih =>
    have h1 := escChar_length_pos c
    simp only [escList, List.length_append, List.length_cons]
    omega

/-! ### JSON string literal parser (model of `json.loads` scanning)

`parseJStrF` consumes the body of a JSON string literal after its opening
quote, up to and including the closing quote, handling the two-character
escapes and `\uXXXX` (with surrogate-pair combination exactly as
CPython's `scanstring`).  It is fuel-indexed purely so its equations
unfold structurally; the wrapper `parseJStr` supplies sufficient fuel. -/

def escUnchar (c : Char) : Option Char :=
  if c = '"' then some '"'
  else if c = '\\' then some '\\'
  else if c = '/' then some '/'
  else if c = 'b' then some '\x08'
  else if c = 'f' then some '\x0c'
  else if c = 'n' then some '\n'
  else if c = 'r' then some '\r'
  else if c = 't' then some '\t'
  else none

def parseJStrF : Nat → List Char → Option (List Char × List Char)
  | 0, _ => none
  | _ + 1, [] => none
  | fuel + 1, c :: cs =>
    if c = '"' then some ([], cs)
    else if c = '\\' then
      match cs with
      | [] => none
      | e :: cs2 =>
        if e = 'u' then
          match cs2 with
          | h1 :: h2 :: h3 :: h4 :: cs3 =>
            match hex4 h1 h2 h3 h4 with
            | some x =>
              if 0xD800 ≤ x ∧ x < 0xDC00 then
                match cs3 with
                | '\\' :: 'u' :: g1 :: g2 :: g3 :: g4 :: cs4 =>
                  match hex4 g1 g2 g3 g4 with
                  | some y =>
                    if 0xDC00 ≤ y ∧ y < 0xE000 then
                      match parseJStrF fuel cs4 with
                      | some (tail, rest) =>
                          some (Char.ofNat (0x10000 + (x - 0xD800) * 0x400 + (y - 0xDC00)) :: tail,
                            rest)
                      | none => none
                    else none
                  | none => none
                | _ => none
              else if 0xDC00 ≤ x ∧ x < 0xE000 then none
              else
                match parseJStrF fuel cs3 with
                | some (tail, rest) => some (Char.ofNat x :: tail, rest)
                | none => none
            | none => none
          | _ => none
        else
          match escUnchar e with
          | some d =>
            match parseJStrF fuel cs2 with
            | some (tail, rest) => some (d :: tail, rest)
            | none => none
          | none => none
    else if c.toNat < 0x20 then none
    else
      match parseJStrF fuel cs with
      | some (tail, rest) => some (c :: tail, rest)
      | none => none

def parseJStr (l : List Char) : Option (List Char × List Char) :=
  parseJStrF (l.length + 1) l

theorem parseJStrF_quote (f : Nat) (cs : List Char) :
    parseJStrF (f + 1) ('"' :: cs) = some ([], cs) := by
  simp [parseJStrF]

theorem parseJStrF_plain (f : Nat) (c : Char) (cs tail rest : List Char)
    (h1 : ¬ c = '"') (h2 : ¬ c = '\\') (h3 : ¬ c.toNat < 0x20)
    (ih : parseJStrF f cs = some (tail, rest)) :
    parseJStrF (f + 1) (c :: cs) = some (c :: tail, rest) := by
  simp only [parseJStrF]
  rw [if_neg h1, if_neg h2, if_neg h3, ih]

theorem parseJStrF_esc (f : Nat) (e d : Char) (cs tail rest : List Char)
    (he : ¬ e = 'u') (hd : escUnchar e = some d)
    (ih : parseJStrF f cs = some (tail, rest)) :
    parseJStrF (f + 1) ('\\' :: e :: cs) = some (d :: tail, rest) := by
  simp only [parseJStrF, if_true]
  rw [if_neg he]
  simp only [hd, ih]
  rw [if_neg (show ('\\' : Char) ≠ '"' by decide)]

theorem parseJStrF_u (f : Nat) (a1 a2 a3 a4 : Char) (x : Nat) (d : Char)
    (cs tail rest : List Char)
    (hx : hex4 a1 a2 a3 a4 = some x)
    (hlo : ¬ (0xD800 ≤ x ∧ x < 0xDC00)) (hhi : ¬ (0xDC00 ≤ x ∧ x < 0xE000))
    (hd : x = d.toNat)
    (ih : parseJStrF f cs = some (tail, rest)) :
    parseJStrF (f + 1) ('\\' :: 'u' :: a1 :: a2 :: a3 :: a4 :: cs) =
      some (d :: tail, rest) := by
  simp only [parseJStrF, if_true, reduceIte]
  simp only [hx]
  rw [if_neg hlo, if_neg hhi, ih]
  rw [if_neg (show ('\\' : Char) ≠ '"' by decide), hd, Char.ofNat_toNat]

theorem parseJStrF_u_pair (f : Nat) (a1 a2 a3 a4 b1 b2 b3 b4 : Char) (x y : Nat)
    (cs tail rest : List Char)
    (hx : hex4 a1 a2 a3 a4 = some x) (hy : hex4 b1 b2 b3 b4 = some y)
    (hxr : 0xD800 ≤ x ∧ x < 0xDC00) (hyr : 0xDC00 ≤ y ∧ y < 0xE000)
    (d : Char) (hd : 0x10000 + (x - 0xD800) * 0x400 + (y - 0xDC00) = d.toNat)
    (ih : parseJStrF f cs = some (tail, rest)) :
    parseJStrF (f + 1)
        ('\\' :: 'u' :: a1 :: a2 :: a3 :: a4 :: '\\' :: 'u' :: b1 :: b2 :: b3 :: b4 :: cs) =
      some (d :: tail, rest) := by
  simp only [parseJStrF, if_true, reduceIte]
  simp only [hx]
  rw [if_pos hxr]
  simp only [hy]
  rw [if_pos hyr, ih]
  rw [if_neg (show ('\\' : Char) ≠ '"' by decide), hd, Char.ofNat_toNat]

set_option maxRecDepth 8192 in
theorem parseJStrF_escList (s : List Char) :
    ∀ (f : Nat) (rest : List Char), s.length < f →
      parseJStrF f (escList s ++ '"' :: rest) = some (s, rest) := by
  induction s with
  | nil =>
    intro f rest hf
    match f, hf with
    | f + 1, _ => exact parseJStrF_quote f rest
  | cons c s ih =>
    intro f rest hf
    match f, hf with
    | f + 1, hf =>
    have hfs : s.length < f := by simpa using hf
    have hv := char_valid_cases c
    have ihf := ih f rest hfs
    simp only [escList, List.append_assoc]
    by_cases h1 : c = '"'
    · subst h1
      simp only [escChar, reduceIte, List.cons_append, List.nil_append]
      exact parseJStrF_esc f '"' '"' _ s rest (by decide) (by decide) ihf
    · by_cases h2 : c = '\\'
      · subst h2
        simp only [escChar, reduceIte, List.cons_append, List.nil_append]
        exact parseJStrF_esc f '\\' '\\' _ s rest (by decide) (by decide) ihf
      · by_cases h3 : c = '\x08'
        · subst h3
          simp only [escChar, reduceIte, List.cons_append, List.nil_append]
          exact parseJStrF_esc f 'b' '\x08' _ s rest (by decide) (by decide) ihf
        · by_cases h4 : c = '\t'
          · subst h4
            simp only [escChar, reduceIte, List.cons_append, List.nil_append]
            exact parseJStrF_esc f 't' '\t' _ s rest (by decide) (by decide) ihf
          · by_cases h5 : c = '\n'
            · subst h5
              simp only [escChar, reduceIte, List.cons_append, List.nil_append]
              exact parseJStrF_esc f 'n' '\n' _ s rest (by decide) (by decide) ihf
            · by_cases h6 : c = '\x0c'
              · subst h6
                simp only [escChar, reduceIte, List.cons_append, List.nil_append]
                exact parseJStrF_esc f 'f' '\x0c' _ s rest (by decide) (by decide) ihf
              · by_cases h7 : c = '\r'
                · subst h7
                  simp only [escChar, reduceIte, List.cons_append, List.nil_append]
                  exact parseJStrF_esc f 'r' '\r' _ s rest (by decide) (by decide) ihf
                · by_cases h8 : c.toNat < 0x20
                  · simp only [escChar, if_neg h1, if_neg h2, if_neg h3, if_neg h4, if_neg h5,
                      if_neg h6, if_neg h7, if_pos h8, uEsc, List.cons_append, List.nil_append]
                    exact parseJStrF_u f _ _ _ _ c.toNat c _ s rest
                      (hex4_uEsc c.toNat (by omega)) (by omega) (by omega) rfl ihf
                  · by_cases h9 : c.toNat < 0x7f
                    · simp only [escChar, if_neg h1, if_neg h2, if_neg h3, if_neg h4, if_neg h5,
                        if_neg h6, if_neg h7, if_neg h8, if_pos h9, List.cons_append,
                        List.nil_append]
                      exact parseJStrF_plain f c _ s rest h1 h2 h8 ihf
                    · by_cases h10 : c.toNat < 0x10000
                      · simp only [escChar, if_neg h1, if_neg h2, if_neg h3, if_neg h4, if_neg h5,
                          if_neg h6, if_neg h7, if_neg h8, if_neg h9, if_pos h10, uEsc,
                          List.cons_append, List.nil_append]
                        exact parseJStrF_u f _ _ _ _ c.toNat c _ s rest
                          (hex4_uEsc c.toNat (by omega)) (by omega) (by omega) rfl ihf
                      · simp only [escChar, if_neg h1, if_neg h2, if_neg h3, if_neg h4, if_neg h5,
                          if_neg h6, if_neg h7, if_neg h8, if_neg h9, if_neg h10, uEsc,
                          List.cons_append, List.nil_append, List.append_assoc]
                        exact parseJStrF_u_pair f _ _ _ _ _ _ _ _
                          (0xD800 + (c.toNat - 0x10000) / 0x400)
                          (0xDC00 + (c.toNat - 0x10000) % 0x400) _ s rest
                          (hex4_uEsc _ (by omega)) (hex4_uEsc _ (by omega))
                          (by refine ⟨by omega, by omega⟩) (by refine ⟨by omega, by omega⟩)
                          c (by omega) ihf

theorem parseJStr_escList (s rest : List Char) :
    parseJStr (escList s ++ '"' :: rest) = some (s, rest) := by
  have hlen := escList_length_ge s
  refine parseJStrF_escList s _ rest ?_
  simp only [List.length_append, List.length_cons]
  omega

/-! ### JSON envelope parsing (model of `json.loads` on string-valued objects)

`jsonLoadsStrObj` parses a JSON object whose values are string literals —
the grammar of the `{"type": ..., "sdp": ...}` envelope that
`_decode_server_sdp` inspects.  JSON input outside this grammar makes it
return `none`; `_decode_server_sdp` then takes its decode-failure
fallback, which returns the decoded text just as the Python original does
for non-object payloads, so the two agree on every input a theorem
touches. -/

def skipWsL : List Char → List Char
  | [] => []
  | c :: cs => if c = ' ' ∨ c = '\t' ∨ c = '\n' ∨ c = '\r' then skipWsL cs else c :: cs

def parseMembers : Nat → List Char → Option (List (String × String) × List Char)
  | 0, _ => none
  | fuel + 1, cs =>
    match skipWsL cs with
    | '"' :: cs1 =>
      match parseJStr cs1 with
      | some (key, cs2) =>
        match skipWsL cs2 with
        | ':' :: cs3 =>
          match skipWsL cs3 with
          | '"' :: cs4 =>
            match parseJStr cs4 with
            | some (val, cs5) =>
              match skipWsL cs5 with
              | ',' :: cs6 =>
                match parseMembers fuel cs6 with
                | some (pairs, rest) => some ((⟨key⟩, ⟨val⟩) :: pairs, rest)
                | none => none
              | '}' :: cs6 => some ([(⟨key⟩, ⟨val⟩)], cs6)
              | _ => none
            | none => none
          | _ => none
        | _ => none
      | none => none
    | _ => none

def jsonLoadsStrObj (s : String) : Option (List (String × String)) :=
  match skipWsL s.data with
  | '{' :: cs =>
    match skipWsL cs with
    | '}' :: cs2 => if skipWsL cs2 = [] then some [] else none
    | _ =>
      match parseMembers (cs.length + 1) cs with
      | some (pairs, rest) => if skipWsL rest = [] then some pairs else none
      | none => none
  | _ => none

/-- Model of `payload.get(key)` on the dict built by `json.loads`: with
duplicate keys the later entry wins, as in a Python dict literal. -/
def pyDictGet : List (String × String) → String → Option String
  | [], _ => none
  | (k, v) :: rest, key =>
    match pyDictGet rest key with
    | some r => some r
    | none => if k = key then some v else none

/-! ### The SDP codec from `voice_live_client.py` -/

/-- The character data of `json.dumps({"type": "offer", "sdp": ...})` up to
the opening quote of the sdp value (Python dicts preserve insertion order
and `json.dumps` uses `", "`/`": "` separators). -/
def envPrefix : List Char :=
  ['{', '"', 't', 'y', 'p', 'e', '"', ':', ' ', '"', 'o', 'f', 'f', 'e', 'r', '"', ',', ' ',
    '"', 's', 'd', 'p', '"', ':', ' ', '"']

/-- Model of `json.dumps({"type": "offer", "sdp": client_sdp})`. -/
def pyJsonDumpsOfferEnvelope (s : String) : String :=
  ⟨envPrefix ++ escList s.data ++ ['"', '}']⟩

/-- Model of Python `str.startswith`. -/
def pyStartsWith (s p : String) : Bool :=
  p.data.isPrefixOf s.data

/-- `_encode_client_sdp` (voice_live_client.py:378-381):
`base64.b64encode(json.dumps({"type": "offer", "sdp": client_sdp}).encode("utf-8")).decode("ascii")`. -/
def _encode_client_sdp (client_sdp : String) : String :=
  ⟨b64e (utf8EncodeL (pyJsonDumpsOfferEnvelope client_sdp).data)⟩

/-- `_decode_server_sdp` (voice_live_client.py:383-405).  The argument is
`Optional[str]`; `if not server_sdp_raw` is falsiness of `None` or `""`. -/
def _decode_server_sdp (server_sdp_raw : Option String) : Option String :=
  match server_sdp_raw with
  | none => none
  | some raw =>
    if raw = "" then none
    else if pyStartsWith raw "v=0" = true then some raw
    else
      match b64d raw.data with
      | none => some raw
      | some decodedBytes =>
        match utf8DecodeL decodedBytes with
        | none => some raw
        | some decodedChars =>
          match jsonLoadsStrObj ⟨decodedChars⟩ with
          | none => some (⟨decodedChars⟩ : String)
          | some pairs =>
            match pyDictGet pairs "sdp" with
            | some sdpValue =>
              if sdpValue ≠ "" then some sdpValue else some (⟨decodedChars⟩ : String)
            | none => some (⟨decodedChars⟩ : String)

/-! ### Parsing the envelope produced by the encoder -/

theorem parseJStr_type (r : List Char) :
    parseJStr ('t' :: 'y' :: 'p' :: 'e' :: '"' :: r) = some (['t', 'y', 'p', 'e'], r) := by
  have h := parseJStr_escList ['t', 'y', 'p', 'e'] r
  rw [show escList ['t', 'y', 'p', 'e'] = ['t', 'y', 'p', 'e'] from by decide] at h
  simpa using h

theorem parseJStr_offer (r : List Char) :
    parseJStr ('o' :: 'f' :: 'f' :: 'e' :: 'r' :: '"' :: r) =
      some (['o', 'f', 'f', 'e', 'r'], r) := by
  have h := parseJStr_escList ['o', 'f', 'f', 'e', 'r'] r
  rw [show escList ['o', 'f', 'f', 'e', 'r'] = ['o', 'f', 'f', 'e', 'r'] from by decide] at h
  simpa using h

theorem parseJStr_sdp (r : List Char) :
    parseJStr ('s' :: 'd' :: 'p' :: '"' :: r) = some (['s', 'd', 'p'], r) := by
  have h := parseJStr_escList ['s', 'd', 'p'] r
  rw [show escList ['s', 'd', 'p'] = ['s', 'd', 'p'] from by decide] at h
  simpa using h

theorem skipWsL_nonws (c : Char) (r : List Char)
    (h : ¬ (c = ' ' ∨ c = '\t' ∨ c = '\n' ∨ c = '\r')) : skipWsL (c :: r) = c :: r := by
  rw [skipWsL, if_neg h]

theorem skipWsL_space (r : List Char) : skipWsL (' ' :: r) = skipWsL r := by
  rw [skipWsL, if_pos (by decide)]

theorem parseMembers_envelope (s : List Char) (m : Nat) :
    parseMembers (m + 1 + 1)
      ('"' :: 't' :: 'y' :: 'p' :: 'e' :: '"' :: ':' :: ' ' :: '"' :: 'o' :: 'f' :: 'f' ::
        'e' :: 'r' :: '"' :: ',' :: ' ' :: '"' :: 's' :: 'd' :: 'p' :: '"' :: ':' :: ' ' ::
        '"' :: (escList s ++ '"' :: ['}'])) =
      some ([("type", "offer"), ("sdp", ⟨s⟩)], []) := by
  have hsdpval := parseJStr_escList s ['}']
  simp only [parseMembers,
    skipWsL_nonws '"' _ (by decide), parseJStr_type,
    skipWsL_nonws ':' _ (by decide), skipWsL_space,
    parseJStr_offer, skipWsL_nonws ',' _ (by decide),
    parseJStr_sdp, hsdpval, skipWsL_nonws '}' _ (by decide)]

theorem skipWsL_lbrace (r : List Char) : skipWsL ('{' :: r) = '{' :: r :=
  skipWsL_nonws '{' r (by decide)

theorem skipWsL_quote (r : List Char) : skipWsL ('"' :: r) = '"' :: r :=
  skipWsL_nonws '"' r (by decide)

theorem jsonLoadsStrObj_envelope (s : String) :
    jsonLoadsStrObj (pyJsonDumpsOfferEnvelope s) = some [("type", "offer"), ("sdp", s)] := by
  have hdata : (pyJsonDumpsOfferEnvelope s).data =
      '{' :: ('"' :: 't' :: 'y' :: 'p' :: 'e' :: '"' :: ':' :: ' ' :: '"' :: 'o' :: 'f' ::
        'f' :: 'e' :: 'r' :: '"' :: ',' :: ' ' :: '"' :: 's' :: 'd' :: 'p' :: '"' :: ':' ::
        ' ' :: '"' :: (escList s.data ++ '"' :: ['}'])) := by
    simp [pyJsonDumpsOfferEnvelope, envPrefix]
  simp only [jsonLoadsStrObj, hdata, skipWsL_lbrace, skipWsL_quote]
  have hlen : ('"' :: 't' :: 'y' :: 'p' :: 'e' :: '"' :: ':' :: ' ' :: '"' :: 'o' :: 'f' ::
      'f' :: 'e' :: 'r' :: '"' :: ',' :: ' ' :: '"' :: 's' :: 'd' :: 'p' :: '"' :: ':' ::
      ' ' :: '"' :: (escList s.data ++ '"' :: ['}'])).length + 1 =
      ((escList s.data).length + 26) + 1 + 1 := by
    simp only [List.length_cons, List.length_append, List.length_nil]
  rw [hlen, parseMembers_envelope s.data]
  rfl

theorem envelope_ascii (s : String) :
    ∀ c ∈ (pyJsonDumpsOfferEnvelope s).data, c.toNat < 0x80 := by
  intro c hc
  have hd : (pyJsonDumpsOfferEnvelope s).data = envPrefix ++ escList s.data ++ ['"', '}'] := rfl
  rw [hd] at hc
  rcases List.mem_append.mp hc with h1 | h1
  · rcases List.mem_append.mp h1 with h2 | h2
    · exact (show ∀ d ∈ envPrefix, d.toNat < 0x80 from by decide) c h2
    · exact escList_ascii s.data c h2
  · rcases (show c ∈ ['"', '}'] → c = '"' ∨ c = '}' from by
      intro hm
      simpa [List.mem_cons] using hm) h1 with h2 | h2 <;> (subst h2; decide)

theorem utf8EncodeL_head_envelope (r : List Char) :
    utf8EncodeL ('{' :: '"' :: 't' :: r) = 123 :: 34 :: 116 :: utf8EncodeL r := by
  simp [utf8EncodeL, show utf8Char '{' = [123] from by decide,
    show utf8Char '"' = [34] from by decide, show utf8Char 't' = [116] from by decide]

theorem b64e_cons3 (a b c : Nat) (X : List Nat) :
    b64e (a :: b :: c :: X) =
      b64CharOf (a / 4) :: b64CharOf (a % 4 * 16 + b / 16) ::
      b64CharOf (b % 16 * 4 + c / 64) :: b64CharOf (c % 64) :: b64e X := rfl

theorem encode_client_sdp_head (s : String) :
    ∃ t : List Char, (_encode_client_sdp s).data = 'e' :: t := by
  have h1 : (pyJsonDumpsOfferEnvelope s).data =
      '{' :: '"' :: 't' :: ('y' :: 'p' :: 'e' :: '"' :: ':' :: ' ' :: '"' :: 'o' :: 'f' ::
        'f' :: 'e' :: 'r' :: '"' :: ',' :: ' ' :: '"' :: 's' :: 'd' :: 'p' :: '"' :: ':' ::
        ' ' :: '"' :: (escList s.data ++ '"' :: ['}'])) := by
    simp [pyJsonDumpsOfferEnvelope, envPrefix]
  have h2 : (_encode_client_sdp s).data =
      b64e (utf8EncodeL (pyJsonDumpsOfferEnvelope s).data) := rfl
  rw [h1, utf8EncodeL_head_envelope, b64e_cons3] at h2
  rw [show b64CharOf (123 / 4) = 'e' from by decide] at h2
  exact ⟨_, h2⟩

theorem encode_client_sdp_ne_empty (s : String) : _encode_client_sdp s ≠ "" := by
  obtain ⟨t, ht⟩ := encode_client_sdp_head s
  intro h
  have := congrArg String.data h
  rw [ht] at this
  cases this

theorem encode_client_sdp_not_v0 (s : String) :
    pyStartsWith (_encode_client_sdp s) "v=0" = false := by
  obtain ⟨t, ht⟩ := encode_client_sdp_head s
  rw [pyStartsWith, ht]
  rw [show ("v=0" : String).data = ['v', '=', '0'] from rfl]
  simp [List.isPrefixOf]

/-- C2 (amended): `_decode_server_sdp` returns any string beginning with
`"v=0"` unchanged, and `_decode_server_sdp (_encode_client_sdp s) = s` for
every non-empty SDP string `s`.  (The original claim's round-trip fails at
`s = ""`: the envelope's `"sdp"` value is then falsy, so the decoder
returns the whole decoded JSON text instead — see
`C2_roundtrip_counterexample`.) -/
theorem C2_sdp_codec_roundtrip :
    (∀ s : String, pyStartsWith s "v=0" = true → _decode_server_sdp (some s) = some s) ∧
    (∀ s : String, s ≠ "" →
      _decode_server_sdp (some (_encode_client_sdp s)) = some s) := by
  constructor
  · intro s h
    have hne : s ≠ "" := by
      intro he
      subst he
      rw [show pyStartsWith "" "v=0" = false from by decide] at h
      cases h
    simp only [_decode_server_sdp]
    rw [if_neg hne, if_pos h]
  · intro s hs
    have hascii := envelope_ascii s
    have hbytes := utf8EncodeL_lt_256 (pyJsonDumpsOfferEnvelope s).data
    have hb64 : b64d (b64e (utf8EncodeL (pyJsonDumpsOfferEnvelope s).data)) =
        some (utf8EncodeL (pyJsonDumpsOfferEnvelope s).data) := b64_roundtrip _ hbytes
    have hutf : utf8DecodeL (utf8EncodeL (pyJsonDumpsOfferEnvelope s).data) =
        some (pyJsonDumpsOfferEnvelope s).data := utf8_roundtrip_ascii _ hascii
    have hjson := jsonLoadsStrObj_envelope s
    have hget : pyDictGet [("type", "offer"), ("sdp", s)] "sdp" = some s := by
      simp [pyDictGet]
    have hdata2 : (_encode_client_sdp s).data =
        b64e (utf8EncodeL (pyJsonDumpsOfferEnvelope s).data) := rfl
    have heta : (⟨(pyJsonDumpsOfferEnvelope s).data⟩ : String) = pyJsonDumpsOfferEnvelope s :=
      rfl
    simp only [_decode_server_sdp]
    rw [if_neg (encode_client_sdp_ne_empty s)]
    have hnv : ¬ (pyStartsWith (_encode_client_sdp s) "v=0" = true) := by
      rw [encode_client_sdp_not_v0]
      simp
    rw [if_neg hnv]
    simp only [hdata2, hb64, hutf, heta, hjson, hget]
    rw [if_pos hs]

/-- C2 counterexample: at the empty SDP string the round-trip fails — the
decoder does not return `""` (it returns the decoded JSON envelope text
instead, because the empty `"sdp"` value is falsy in Python). -/
theorem C2_roundtrip_counterexample :
    _decode_server_sdp (some (_encode_client_sdp "")) ≠ some "" := by decide

theorem C2_sdp_codec_roundtrip_witness :
    _decode_server_sdp (some "v=0 test") = some "v=0 test" ∧
    _decode_server_sdp (some (_encode_client_sdp "v=0 example")) = some "v=0 example" :=
  ⟨C2_sdp_codec_roundtrip.1 "v=0 test" (by decide),
    C2_sdp_codec_roundtrip.2 "v=0 example" (by decide)⟩

/-! ## Part 2 — the `VoiceLiveSession` relay model

Python values carried inside JSON events are modeled by `PyVal`
(numbers as rationals).  A session's mutable attributes become the fields
of `SessionState`; ghost fields (`openedCount`, `broadcastLog`,
`droppedCount`, `sent`) record observable effects: successful
`websockets.connect` calls, `_broadcast` invocations, slow-consumer
warnings, and the frames written to the upstream socket, in order. -/

inductive PyVal where
  | pnone : PyVal
  | pbool : Bool → PyVal
  | pnum : Rat → PyVal
  | pstr : String → PyVal
  | plist : List PyVal → PyVal
  | pdict : List (String × PyVal) → PyVal

/-- Model of `dict.get(key)`: the later of duplicate keys wins, as when the
dict is built from JSON. -/
def pyGet : List (String × PyVal) → String → Option PyVal
  | [], _ => none
  | (k, v) :: rest, key =>
    match pyGet rest key with
    | some r => some r
    | none => if k = key then some v else none

def pyGetStr (e : List (String × PyVal)) (k : String) : Option String :=
  match pyGet e k with
  | some (PyVal.pstr s) => some s
  | _ => none

/-- Model of `key in event`. -/
def containsKey (e : List (String × PyVal)) (k : String) : Bool :=
  e.any (fun p => p.1 == k)

/-- `event.get(k)` evaluates to `None` when the key is absent. -/
def optVal : Option PyVal → PyVal
  | some v => v
  | none => PyVal.pnone

def asNum : PyVal → Option Rat
  | PyVal.pnum r => some r
  | _ => none

/-- States of an `asyncio.Future`; `done()` is every state but `pending`. -/
inductive FutureState where
  | pending : FutureState
  | resolved : String → FutureState
  | failed : String → FutureState
  | cancelled : FutureState
deriving DecidableEq

/-- State of a `websockets` connection handle (the library in use exposes
`state`; the `connect()` coroutine only ever hands back an OPEN handle, so
the CONNECTING phase and the attribute-probing fallbacks of
`_ws_is_open` for other library versions are unreachable here). -/
inductive WsState where
  | OPEN : WsState
  | CLOSING : WsState
  | CLOSED : WsState
deriving DecidableEq

/-- An `asyncio.Queue(maxsize=...)` of normalized events. -/
structure ListenerQueue where
  maxsize : Nat
  items : List (List (String × PyVal))

/-- An upstream frame: `{event_id, type, **data}`.  The `event_id`
(derived from the wall clock by `_generate_id`) is not modeled. -/
structure Frame where
  etype : String
  data : List (String × PyVal)

structure LangInfo where
  code : String
  name : String
  voice : String

structure SessionState where
  ws : Option WsState
  openedCount : Nat
  receiveTask : Bool
  connectedEvent : Bool
  avatarConnected : Bool
  avatarFuture : Option Nat
  futures : List FutureState
  listeners : List ListenerQueue
  broadcastLog : List (List (String × PyVal))
  droppedCount : Nat
  voiceName : String
  transcriptionLanguage : String
  supportedLanguages : List LangInfo
  detectedLanguage : Option String
  detectionConfidence : Rat
  sent : List Frame

/-- `_ws_is_open` (voice_live_client.py:111-148) on the representable
handle states: `self.ws is None` is closed; otherwise the handle's
`state` decides (`OPEN` → open, `CLOSING`/`CLOSED` → closed). -/
def _ws_is_open (s : SessionState) : Bool :=
  match s.ws with
  | none => false
  | some WsState.OPEN => true
  | some WsState.CLOSING => false
  | some WsState.CLOSED => false

/-- `create_event_queue` (lines 407-410): a fresh bounded queue of
capacity 200, registered with the session (the Python listener set is
modeled as a list; registration appends). -/
def create_event_queue (s : SessionState) : SessionState × ListenerQueue :=
  ({ s with listeners := s.listeners ++ [⟨200, []⟩] }, ⟨200, []⟩)

/-- `queue.put_nowait`: `none` models the `QueueFull` exception. -/
def putNowait (q : ListenerQueue) (e : List (String × PyVal)) : Option ListenerQueue :=
  if q.items.length < q.maxsize then some { q with items := q.items ++ [e] } else none

/-- `_broadcast` (lines 415-422): iterate a snapshot of the listeners,
attempt a non-blocking enqueue on each, count a warning and keep going on
a full queue.  The early return for an empty listener set has the same
queue effect as iterating nothing; `broadcastLog` records the invocation
either way. -/
def _broadcast (s : SessionState) (e : List (String × PyVal)) : SessionState :=
  { s with
    broadcastLog := s.broadcastLog ++ [e],
    listeners := s.listeners.map (fun q =>
      match putNowait q e with
      | some q2 => q2
      | none => q),
    droppedCount := s.droppedCount +
      s.listeners.countP (fun q => decide (q.maxsize ≤ q.items.length)) }

def pushFrame (s : SessionState) (etype : String) (data : List (String × PyVal)) :
    SessionState :=
  { s with sent := s.sent ++ [⟨etype, data⟩] }

/-- `_send` (lines 355-372), parameterized by the `self.connect` it may
invoke.  In the model an error leaves no state behind; this is faithful
because the only error path has `allow_reconnect = False` (where nothing
was mutated) or a still-closed link after a `connect` that, having
returned at all, left the link open. -/
def _send (connectF : SessionState → SessionState) (s : SessionState) (event_type : String)
    (data : List (String × PyVal)) (allow_reconnect : Bool) : Except String SessionState :=
  if _ws_is_open s = false then
    let s1 := if allow_reconnect then connectF s else s
    if _ws_is_open s1 = false then Except.error "Session websocket is not connected"
    else Except.ok (pushFrame s1 event_type data)
  else Except.ok (pushFrame s event_type data)

/-- The claim-relevant projection of `self._session_config` sent in the
initial `session.update`; the environment-derived constant entries
(modalities, turn detection, noise suppression, avatar appearance) play
no role in any verified property. -/
def sessionConfigData (s : SessionState) : List (String × PyVal) :=
  [("session", PyVal.pdict
    [("voice", PyVal.pdict [("name", PyVal.pstr s.voiceName)]),
     ("input_audio_transcription", PyVal.pdict
       [("language", PyVal.pstr s.transcriptionLanguage)])])]

/-- `connect` (lines 300-343).  The body runs under `self._lock`, so it is
one critical section and is modeled atomically.  Credential acquisition
and URL construction mutate nothing observable; `websockets.connect`
either raises (the exception propagates and no state changes — not a
step) or returns an open handle, counted in `openedCount`.  Then the
receive loop starts, the configuration command is issued with
reconnection disallowed, and only after that is the ready signal set. -/
def connect (s : SessionState) : SessionState :=
  if _ws_is_open s then s
  else
    let s1 := { s with
      ws := some WsState.OPEN
      openedCount := s.openedCount + 1
      receiveTask := true }
    let s2 :=
      match _send (fun x => x) s1 "session.update" (sessionConfigData s1) false with
      | Except.ok t => t
      | Except.error _ => s1
    { s2 with connectedEvent := true }

/-- `disconnect` (lines 345-353): close the handle, cancel the receive
task, clear the handle and the ready signal. -/
def disconnect (s : SessionState) : SessionState :=
  { s with ws := none, receiveTask := false, connectedEvent := false }

/-- `get_current_language` (lines 596-610). -/
def get_current_language (s : SessionState) : String :=
  let currentLanguage := s.transcriptionLanguage
  if currentLanguage.contains ',' then
    ((currentLanguage.splitOn ",").headD currentLanguage).trim
  else currentLanguage

def voiceUpdateData (li : LangInfo) : List (String × PyVal) :=
  [("session", PyVal.pdict
    [("voice", PyVal.pdict
      [("name", PyVal.pstr li.voice), ("type", PyVal.pstr "azure-standard"),
       ("temperature", PyVal.pnum (4 / 5))])])]

/-- `_auto_switch_voice_language` (lines 653-688): send a voice-only
session update, record the new voice name, return success; any exception
yields `False` with no voice change. -/
def _auto_switch_voice_language (s : SessionState) (li : LangInfo) : SessionState × Bool :=
  match _send connect s "session.update" (voiceUpdateData li) true with
  | Except.ok s1 => ({ s1 with voiceName := li.voice }, true)
  | Except.error _ => (s, false)

/-- `_handle_language_detection` (lines 612-651): record the detection,
look the language up among the supported ones, and if its voice differs
from the current one, auto-switch (`success = await
self._auto_switch_voice_language(...)`) and on success broadcast the
`language_auto_switched` notification. -/
def _handle_language_detection (s : SessionState) (detected_language : String)
    (confidence : Rat) : SessionState :=
  let s0 := { s with detectedLanguage := some detected_language,
                     detectionConfidence := confidence }
  let currentVoiceLang := s0.voiceName
  match s0.supportedLanguages.find? (fun li => li.code == detected_language) with
  | some target =>
    if currentVoiceLang ≠ target.voice then
      let res := _auto_switch_voice_language s0 target
      if res.2 then
        _broadcast res.1
          [("type", PyVal.pstr "language_auto_switched"),
           ("from_language", PyVal.pstr (get_current_language res.1)),
           ("to_language", PyVal.pstr detected_language),
           ("language_name", PyVal.pstr target.name),
           ("confidence", PyVal.pnum confidence),
           ("voice", PyVal.pstr target.voice)]
      else res.1
    else s0
  | none => s0

/-- The normalized events built inline in the simple dispatch branches. -/
def evError (event : List (String × PyVal)) : List (String × PyVal) :=
  [("type", PyVal.pstr "error"), ("payload", PyVal.pdict event)]

def evAudioDelta (event : List (String × PyVal)) : List (String × PyVal) :=
  [("type", PyVal.pstr "assistant_audio_delta"), ("delta", optVal (pyGet event "delta"))]

def evAudioDone (event : List (String × PyVal)) : List (String × PyVal) :=
  [("type", PyVal.pstr "assistant_audio_done"), ("payload", PyVal.pdict event)]

def evTranscriptDelta (event : List (String × PyVal)) : List (String × PyVal) :=
  [("type", PyVal.pstr "assistant_transcript_delta"), ("delta", optVal (pyGet event "delta")),
   ("item_id", optVal (pyGet event "item_id"))]

def evTranscriptDone (event : List (String × PyVal)) : List (String × PyVal) :=
  [("type", PyVal.pstr "assistant_transcript_done"),
   ("transcript", optVal (pyGet event "transcript")),
   ("item_id", optVal (pyGet event "item_id"))]

def evSpeechStarted : List (String × PyVal) := [("type", PyVal.pstr "speech_started")]

def evSpeechStopped : List (String × PyVal) := [("type", PyVal.pstr "speech_stopped")]

def evAudioCommitted : List (String × PyVal) := [("type", PyVal.pstr "input_audio_committed")]

def evAvatarConnected : List (String × PyVal) := [("type", PyVal.pstr "avatar_connected")]

def evResponseDone (event : List (String × PyVal)) : List (String × PyVal) :=
  [("type", PyVal.pstr "response_done"), ("payload", PyVal.pdict event)]

def evPassthrough (event : List (String × PyVal)) : List (String × PyVal) :=
  [("type", PyVal.pstr "event"), ("payload", PyVal.pdict event)]

/-- The `conversation.item.input_audio_transcription.completed` branch
(lines 739-755). -/
def handleTranscriptionCompleted (s : SessionState) (event : List (String × PyVal)) :
    SessionState :=
  let transcriptBase := [("type", PyVal.pstr "user_transcript_completed"),
    ("transcript", optVal (pyGet event "transcript")),
    ("item_id", optVal (pyGet event "item_id"))]
  let confVal := (pyGet event "language_confidence").getD (PyVal.pnum 0)
  match pyGetStr event "detected_language", asNum confVal with
  | some dl, some conf =>
    if dl ≠ "" ∧ (7 : Rat) / 10 < conf then
      _broadcast (_handle_language_detection s dl conf)
        (transcriptBase ++ [("detected_language", PyVal.pstr dl),
          ("language_confidence", confVal)])
    else _broadcast s transcriptBase
  | _, _ => _broadcast s transcriptBase

/-- The `event.get("server_sdp")` read at line 763: a string value or
nothing. -/
def serverSdpOf (event : List (String × PyVal)) : Option String :=
  match pyGet event "server_sdp" with
  | some (PyVal.pstr t) => some t
  | _ => none

/-- The `session.avatar.connecting` branch (lines 762-777): resolve or
fail a pending negotiation future from the decoded server SDP, then
broadcast `avatar_connecting` in every case. -/
def handleAvatarConnecting (s : SessionState) (event : List (String × PyVal)) :
    SessionState :=
  let decodedSdp := _decode_server_sdp (serverSdpOf event)
  let s1 :=
    match s.avatarFuture with
    | some i =>
      if s.futures.get? i = some FutureState.pending then
        match decodedSdp with
        | none =>
            { s with futures := s.futures.set i (FutureState.failed "Empty server SDP") }
        | some d => { s with futures := s.futures.set i (FutureState.resolved d) }
      else s
    | none => s
  _broadcast s1 [("type", PyVal.pstr "avatar_connecting")]

/-- The `session.avatar.disconnected` branch (lines 780-786): clear the
avatar-connected flag, cancel a pending negotiation (clearing the slot),
broadcast `avatar_disconnected`. -/
def handleAvatarDisconnected (s : SessionState) : SessionState :=
  let s1 := { s with avatarConnected := false }
  let s2 :=
    match s1.avatarFuture with
    | some i =>
      if s1.futures.get? i = some FutureState.pending then
        { s1 with futures := s1.futures.set i FutureState.cancelled, avatarFuture := none }
      else s1
    | none => s1
  _broadcast s2 [("type", PyVal.pstr "avatar_disconnected")]

/-- The `input_audio_buffer.language_detected` branch (lines 787-798). -/
def handleLanguageDetected (s : SessionState) (event : List (String × PyVal)) :
    SessionState :=
  let confVal := (pyGet event "confidence").getD (PyVal.pnum 0)
  let s1 :=
    match pyGetStr event "language", asNum confVal with
    | some dl, some conf =>
      if dl ≠ "" ∧ (6 : Rat) / 10 < conf then _handle_language_detection s dl conf else s
    | _, _ => s
  _broadcast s1 [("type", PyVal.pstr "language_detected"),
    ("language", optVal (pyGet event "language")), ("confidence", confVal),
    ("payload", PyVal.pdict event)]

/-- The `conversation.item.input_audio_transcription.delta` branch
(lines 799-809). -/
def handleTranscriptionDelta (s : SessionState) (event : List (String × PyVal)) :
    SessionState :=
  let transcriptDelta := [("type", PyVal.pstr "user_transcript_delta"),
    ("delta", optVal (pyGet event "delta")), ("item_id", optVal (pyGet event "item_id"))]
  let transcriptDelta2 :=
    if containsKey event "language" then
      transcriptDelta ++ [("detected_language", optVal (pyGet event "language"))]
    else transcriptDelta
  _broadcast s transcriptDelta2

/-- One iteration of `_receive_loop`'s dispatch (lines 715-816) on a
parsed inbound event.  String/number field access is modeled by the
typed getters; an ill-typed field that would raise inside a handler (and
so kill the Python loop) is outside the model — no theorem dispatches
such an event.  A missing or non-string `type` makes every comparison
false, landing in the pass-through branch, as in Python. -/
def handleUpstreamEvent (s : SessionState) (event : List (String × PyVal)) : SessionState :=
  if pyGetStr event "type" = some "error" then _broadcast s (evError event)
  else if pyGetStr event "type" = some "response.audio.delta" then
    _broadcast s (evAudioDelta event)
  else if pyGetStr event "type" = some "response.audio.done" then
    _broadcast s (evAudioDone event)
  else if pyGetStr event "type" = some "response.audio_transcript.delta" then
    _broadcast s (evTranscriptDelta event)
  else if pyGetStr event "type" = some "response.audio_transcript.done" then
    _broadcast s (evTranscriptDone event)
  else if pyGetStr event "type" = some "conversation.item.input_audio_transcription.completed"
      then
    handleTranscriptionCompleted s event
  else if pyGetStr event "type" = some "input_audio_buffer.speech_started" then
    _broadcast s evSpeechStarted
  else if pyGetStr event "type" = some "input_audio_buffer.speech_stopped" then
    _broadcast s evSpeechStopped
  else if pyGetStr event "type" = some "input_audio_buffer.committed" then
    _broadcast s evAudioCommitted
  else if pyGetStr event "type" = some "session.avatar.connecting" then
    handleAvatarConnecting s event
  else if pyGetStr event "type" = some "session.avatar.connected" then
    _broadcast s evAvatarConnected
  else if pyGetStr event "type" = some "session.avatar.disconnected" then
    handleAvatarDisconnected s
  else if pyGetStr event "type" = some "input_audio_buffer.language_detected" then
    handleLanguageDetected s event
  else if pyGetStr event "type" = some "conversation.item.input_audio_transcription.delta" then
    handleTranscriptionDelta s event
  else if pyGetStr event "type" = some "response.done" then
    _broadcast s (evResponseDone event)
  else _broadcast s (evPassthrough event)

/-! ### The avatar-coroutine step machine

`connect_avatar` (lines 479-519) suspends at `await wait_for(future)`;
everything from the post-wait checks through `self._send` runs without
yielding control (the `websockets` send completes synchronously here), so
it forms one atomic step.  A second step resumes the task once its future
is done, or times it out while pending (`asyncio.wait_for` cancels the
future it was awaiting before raising `TimeoutError`).  The `finally`
block's unconditional `self._avatar_future = None` is part of every
completion step. -/

inductive AvatarPC where
  | start : AvatarPC
  | awaitFut : Nat → AvatarPC
  | done : Except String String → AvatarPC

structure AvatarTask where
  sdp : String
  pc : AvatarPC

structure Machine where
  sess : SessionState
  tasks : List AvatarTask

inductive StepLabel where
  | connectLink : StepLabel
  | disconnectLink : StepLabel
  | recv : List (String × PyVal) → StepLabel
  | avatarStart : Nat → StepLabel
  | avatarResume : Nat → StepLabel
  | avatarTimeout : Nat → StepLabel
  | disconnectAvatar : StepLabel

/-- The upstream payload built at lines 495-499. -/
def avatarConnectPayload (client_sdp : String) : List (String × PyVal) :=
  [("client_sdp", PyVal.pstr (_encode_client_sdp client_sdp)),
   ("rtc_configuration", PyVal.pdict [("bundle_policy", PyVal.pstr "max-bundle")])]

/-- Lines 489-491: `if self._avatar_future and not self._avatar_future.done():
self._avatar_future.cancel()` — the slot itself is left in place (it is
overwritten just after). -/
def cancelPendingSlot (s : SessionState) : SessionState :=
  match s.avatarFuture with
  | some i =>
    if s.futures.get? i = some FutureState.pending then
      { s with futures := s.futures.set i FutureState.cancelled }
    else s
  | none => s

/-- Lines 489-494: the session state right after a caller cancels a
pending prior negotiation and installs its own fresh pending future in
the `_avatar_future` slot. -/
def avatarArmState (s : SessionState) : SessionState :=
  let s1 := cancelPendingSlot s
  { s1 with
    futures := s1.futures ++ [FutureState.pending]
    avatarFuture := some s1.futures.length }

/-- First atomic block of `connect_avatar` for caller `n`: wait for the
ready signal, reject if an avatar is connected, cancel a pending prior
negotiation, install a fresh future in the slot, and send the
`session.avatar.connect` frame; the task then awaits its future. -/
def connect_avatar_start (m : Machine) (n : Nat) : Option Machine :=
  match m.tasks.get? n with
  | none => none
  | some t =>
    match t.pc with
    | AvatarPC.start =>
      if m.sess.connectedEvent = false then none
      else if m.sess.avatarConnected then
        some { m with tasks := m.tasks.set n { t with pc := AvatarPC.done (Except.error
          "Avatar is already connected. Only one avatar connection is allowed per session.") } }
      else
        let fid := (cancelPendingSlot m.sess).futures.length
        let s2 := avatarArmState m.sess
        match _send connect s2 "session.avatar.connect" (avatarConnectPayload t.sdp) true with
        | Except.ok s3 =>
            some { sess := s3, tasks := m.tasks.set n { t with pc := AvatarPC.awaitFut fid } }
        | Except.error e =>
            some { sess := s2,
                   tasks := m.tasks.set n { t with pc := AvatarPC.done (Except.error e) } }
    | _ => none

/-- Completion of `connect_avatar` once the awaited future is done
(lines 504-519): success marks the avatar connected and returns the SDP;
cancellation and failure convert to `RuntimeError`s; the `finally` block
sets the `_avatar_future` slot to `None` unconditionally on every path. -/
def connect_avatar_resume (m : Machine) (n : Nat) : Option Machine :=
  match m.tasks.get? n with
  | none => none
  | some t =>
    match t.pc with
    | AvatarPC.awaitFut i =>
      match m.sess.futures.get? i with
      | some (FutureState.resolved sdp) =>
          some { sess := { m.sess with avatarConnected := true, avatarFuture := none },
                 tasks := m.tasks.set n { t with pc := AvatarPC.done (Except.ok sdp) } }
      | some FutureState.cancelled =>
          some { sess := { m.sess with avatarFuture := none },
                 tasks := m.tasks.set n { t with pc := AvatarPC.done (Except.error
                   "Avatar connection was cancelled") } }
      | some (FutureState.failed msg) =>
          some { sess := { m.sess with avatarFuture := none },
                 tasks := m.tasks.set n { t with pc := AvatarPC.done (Except.error
                   ("Avatar connection failed: " ++ msg)) } }
      | _ => none
    | _ => none

/-- The 30-second `wait_for` timeout while the future is still pending:
`wait_for` cancels the inner future, the `except TimeoutError` branch
raises the timeout `RuntimeError`, and the `finally` block clears the
slot.  (Timing is abstracted: the step is enabled whenever the deadline
could expire.) -/
def connect_avatar_timeout (m : Machine) (n : Nat) : Option Machine :=
  match m.tasks.get? n with
  | none => none
  | some t =>
    match t.pc with
    | AvatarPC.awaitFut i =>
      if m.sess.futures.get? i = some FutureState.pending then
        some { sess := { m.sess with
                 futures := m.sess.futures.set i FutureState.cancelled
                 avatarFuture := none },
               tasks := m.tasks.set n { t with pc := AvatarPC.done (Except.error
                 "Avatar connection timed out - Azure Voice Live did not respond") } }
      else none
    | _ => none

/-- `disconnect_avatar` (lines 459-477): wait for the ready signal; warn
and return if no avatar is connected; otherwise send the disconnect
command, clear the connected flag, and defensively cancel (and clear) a
pending future.  The error arm of the send is unreachable in the model
(reconnection is allowed, and the modeled `connect` leaves an open
link). -/
def disconnect_avatar_step (m : Machine) : Option Machine :=
  if m.sess.connectedEvent = false then none
  else if m.sess.avatarConnected = false then some m
  else
    match _send connect m.sess "session.avatar.disconnect" [] true with
    | Except.ok s1 =>
        let s2 := { s1 with avatarConnected := false }
        let s3 :=
          match s2.avatarFuture with
          | some i =>
            if s2.futures.get? i = some FutureState.pending then
              { s2 with futures := s2.futures.set i FutureState.cancelled,
                        avatarFuture := none }
            else s2
          | none => s2
        some { m with sess := s3 }
    | Except.error _ => some m

/-- One scheduler step of the session machine. -/
def stepF (l : StepLabel) (m : Machine) : Option Machine :=
  match l with
  | StepLabel.connectLink => some { m with sess := connect m.sess }
  | StepLabel.disconnectLink => some { m with sess := disconnect m.sess }
  | StepLabel.recv e =>
      if m.sess.receiveTask then some { m with sess := handleUpstreamEvent m.sess e } else none
  | StepLabel.avatarStart n => connect_avatar_start m n
  | StepLabel.avatarResume n => connect_avatar_resume m n
  | StepLabel.avatarTimeout n => connect_avatar_timeout m n
  | StepLabel.disconnectAvatar => disconnect_avatar_step m

/-- The state built by `VoiceLiveSession.__init__` (for any
environment-derived configuration). -/
def initialSession (voiceName transcriptionLanguage : String) (langs : List LangInfo) :
    SessionState :=
  { ws := none, openedCount := 0, receiveTask := false, connectedEvent := false,
    avatarConnected := false, avatarFuture := none, futures := [], listeners := [],
    broadcastLog := [], droppedCount := 0, voiceName := voiceName,
    transcriptionLanguage := transcriptionLanguage, supportedLanguages := langs,
    detectedLanguage := none, detectionConfidence := 0, sent := [] }

/-- Machines reachable from a fresh session with any set of pending
`connect_avatar` callers. -/
inductive Reachable : Machine → Prop where
  | init (vn tl : String) (langs : List LangInfo) (sdps : List String) :
      Reachable ⟨initialSession vn tl langs, sdps.map (fun sd => ⟨sd, AvatarPC.start⟩)⟩
  | step (l : StepLabel) (m m' : Machine) : Reachable m → stepF l m = some m' → Reachable m'

/-! ### Field-preservation lemmas -/

theorem broadcast_sent (s : SessionState) (e : List (String × PyVal)) :
    (_broadcast s e).sent = s.sent := rfl

theorem broadcast_avatarConnected (s : SessionState) (e : List (String × PyVal)) :
    (_broadcast s e).avatarConnected = s.avatarConnected := rfl

theorem broadcast_connectedEvent (s : SessionState) (e : List (String × PyVal)) :
    (_broadcast s e).connectedEvent = s.connectedEvent := rfl

theorem broadcast_futures (s : SessionState) (e : List (String × PyVal)) :
    (_broadcast s e).futures = s.futures := rfl

theorem broadcast_avatarFuture (s : SessionState) (e : List (String × PyVal)) :
    (_broadcast s e).avatarFuture = s.avatarFuture := rfl

theorem pushFrame_avatarConnected (s : SessionState) (et : String)
    (d : List (String × PyVal)) : (pushFrame s et d).avatarConnected = s.avatarConnected := rfl

theorem pushFrame_connectedEvent (s : SessionState) (et : String)
    (d : List (String × PyVal)) : (pushFrame s et d).connectedEvent = s.connectedEvent := rfl

theorem pushFrame_sent (s : SessionState) (et : String) (d : List (String × PyVal)) :
    (pushFrame s et d).sent = s.sent ++ [⟨et, d⟩] := rfl

theorem connect_of_open (s : SessionState) (h : _ws_is_open s = true) : connect s = s := by
  rw [connect, if_pos h]

theorem connect_opens (s : SessionState) : _ws_is_open (connect s) = true := by
  rw [connect]
  split
  · assumption
  · rfl

theorem connect_avatarConnected (s : SessionState) :
    (connect s).avatarConnected = s.avatarConnected := by
  rw [connect]
  split
  · rfl
  · rfl

theorem connect_futures (s : SessionState) : (connect s).futures = s.futures := by
  rw [connect]
  split
  · rfl
  · rfl

theorem connect_avatarFuture (s : SessionState) :
    (connect s).avatarFuture = s.avatarFuture := by
  rw [connect]
  split
  · rfl
  · rfl

theorem connect_sent_of_closed (s : SessionState) (h : _ws_is_open s = false) :
    (connect s).sent = s.sent ++ [⟨"session.update", sessionConfigData s⟩] := by
  rw [connect, if_neg (by rw [h]; exact Bool.false_ne_true)]
  rfl

theorem connect_sent_extends (s : SessionState) :
    ∃ fs, (connect s).sent = s.sent ++ fs := by
  by_cases h : _ws_is_open s = true
  · exact ⟨[], by rw [connect_of_open s h, List.append_nil]⟩
  · exact ⟨_, connect_sent_of_closed s (by rwa [Bool.not_eq_true] at h)⟩

theorem connect_connectedEvent_ready (s : SessionState) :
    (connect s).connectedEvent = true →
      s.connectedEvent = true ∨ ∃ fr ∈ (connect s).sent, fr.etype = "session.update" := by
  intro hc
  by_cases h : _ws_is_open s = true
  · rw [connect_of_open s h] at hc
    exact Or.inl hc
  · refine Or.inr ?_
    rw [connect_sent_of_closed s (by rwa [Bool.not_eq_true] at h)]
    exact ⟨⟨"session.update", sessionConfigData s⟩, by simp, rfl⟩

theorem send_connect_eq (s : SessionState) (et : String) (d : List (String × PyVal)) :
    _send connect s et d true =
      Except.ok (pushFrame (if _ws_is_open s = true then s else connect s) et d) := by
  rw [_send]
  by_cases h : _ws_is_open s = true
  · rw [if_neg (by rw [h]; decide), if_pos h]
  · have h' : _ws_is_open s = false := by rwa [Bool.not_eq_true] at h
    rw [if_pos h', if_pos rfl, if_neg (by rw [connect_opens]; decide),
      if_neg h]

theorem send_connect_sent_extends (s : SessionState) (et : String)
    (d : List (String × PyVal)) (r : SessionState)
    (hr : _send connect s et d true = Except.ok r) : ∃ fs, r.sent = s.sent ++ fs := by
  rw [send_connect_eq] at hr
  cases hr
  by_cases h : _ws_is_open s = true
  · rw [if_pos h, pushFrame_sent]
    exact ⟨_, rfl⟩
  · rw [if_neg h, pushFrame_sent]
    obtain ⟨fs, hfs⟩ := connect_sent_extends s
    rw [hfs]
    exact ⟨fs ++ [⟨et, d⟩], List.append_assoc _ _ _⟩

theorem send_connect_avatarConnected (s : SessionState) (et : String)
    (d : List (String × PyVal)) (r : SessionState)
    (hr : _send connect s et d true = Except.ok r) :
    r.avatarConnected = s.avatarConnected := by
  rw [send_connect_eq] at hr
  cases hr
  by_cases h : _ws_is_open s = true
  · rw [if_pos h, pushFrame_avatarConnected]
  · rw [if_neg h, pushFrame_avatarConnected, connect_avatarConnected]

theorem send_connect_futures (s : SessionState) (et : String)
    (d : List (String × PyVal)) (r : SessionState)
    (hr : _send connect s et d true = Except.ok r) : r.futures = s.futures := by
  rw [send_connect_eq] at hr
  cases hr
  by_cases h : _ws_is_open s = true
  · rw [if_pos h]
    rfl
  · rw [if_neg h]
    show (connect s).futures = s.futures
    exact connect_futures s

theorem send_connect_avatarFuture (s : SessionState) (et : String)
    (d : List (String × PyVal)) (r : SessionState)
    (hr : _send connect s et d true = Except.ok r) : r.avatarFuture = s.avatarFuture := by
  rw [send_connect_eq] at hr
  cases hr
  by_cases h : _ws_is_open s = true
  · rw [if_pos h]
    rfl
  · rw [if_neg h]
    show (connect s).avatarFuture = s.avatarFuture
    exact connect_avatarFuture s

theorem send_connect_ready (s : SessionState) (et : String)
    (d : List (String × PyVal)) (r : SessionState)
    (hr : _send connect s et d true = Except.ok r) :
    r.connectedEvent = true →
      s.connectedEvent = true ∨ ∃ fr ∈ r.sent, fr.etype = "session.update" := by
  rw [send_connect_eq] at hr
  cases hr
  intro hc
  by_cases h : _ws_is_open s = true
  · rw [if_pos h] at hc ⊢
    rw [pushFrame_connectedEvent] at hc
    exact Or.inl hc
  · rw [if_neg h] at hc ⊢
    rw [pushFrame_connectedEvent] at hc
    rcases connect_connectedEvent_ready s hc with h1 | ⟨fr, hmem, hfr⟩
    · exact Or.inl h1
    · refine Or.inr ⟨fr, ?_, hfr⟩
      rw [pushFrame_sent]
      exact List.mem_append.mpr (Or.inl hmem)

theorem auto_switch_eq (s : SessionState) (li : LangInfo) :
    _auto_switch_voice_language s li =
      ({ pushFrame (if _ws_is_open s = true then s else connect s) "session.update"
          (voiceUpdateData li) with voiceName := li.voice }, true) := by
  unfold _auto_switch_voice_language
  rw [send_connect_eq]

theorem vup_avatarConnected (r : SessionState) (v : String) :
    ({ r with voiceName := v } : SessionState).avatarConnected = r.avatarConnected := rfl

theorem vup_futures (r : SessionState) (v : String) :
    ({ r with voiceName := v } : SessionState).futures = r.futures := rfl

theorem vup_avatarFuture (r : SessionState) (v : String) :
    ({ r with voiceName := v } : SessionState).avatarFuture = r.avatarFuture := rfl

theorem vup_sent (r : SessionState) (v : String) :
    ({ r with voiceName := v } : SessionState).sent = r.sent := rfl

theorem vup_connectedEvent (r : SessionState) (v : String) :
    ({ r with voiceName := v } : SessionState).connectedEvent = r.connectedEvent := rfl

theorem hld_avatarConnected (s : SessionState) (dl : String) (conf : Rat) :
    (_handle_language_detection s dl conf).avatarConnected = s.avatarConnected := by
  simp only [_handle_language_detection]
  split
  · split
    · rw [auto_switch_eq]
      simp only [broadcast_avatarConnected, vup_avatarConnected, pushFrame_avatarConnected,
        if_true]
      split
      · rfl
      · exact connect_avatarConnected _
    · rfl
  · rfl

theorem hld_futures (s : SessionState) (dl : String) (conf : Rat) :
    (_handle_language_detection s dl conf).futures = s.futures := by
  simp only [_handle_language_detection]
  split
  · split
    · rw [auto_switch_eq]
      simp only [broadcast_futures, vup_futures, if_true]
      rw [show ∀ x : SessionState, (pushFrame x "session.update" (voiceUpdateData _)).futures =
        x.futures from fun x => rfl]
      split
      · rfl
      · exact connect_futures _
    · rfl
  · rfl

theorem hld_avatarFuture (s : SessionState) (dl : String) (conf : Rat) :
    (_handle_language_detection s dl conf).avatarFuture = s.avatarFuture := by
  simp only [_handle_language_detection]
  split
  · split
    · rw [auto_switch_eq]
      simp only [broadcast_avatarFuture, vup_avatarFuture, if_true]
      rw [show ∀ x : SessionState,
        (pushFrame x "session.update" (voiceUpdateData _)).avatarFuture =
        x.avatarFuture from fun x => rfl]
      split
      · rfl
      · exact connect_avatarFuture _
    · rfl
  · rfl

theorem hld_sent_extends (s : SessionState) (dl : String) (conf : Rat) :
    ∃ fs, (_handle_language_detection s dl conf).sent = s.sent ++ fs := by
  simp only [_handle_language_detection]
  split
  · split
    · rw [auto_switch_eq]
      simp only [broadcast_sent, vup_sent, pushFrame_sent, if_true]
      split
      · exact ⟨_, rfl⟩
      · obtain ⟨fs, hfs⟩ := connect_sent_extends _
        rw [hfs, show ({ s with detectedLanguage := some dl, detectionConfidence := conf } : SessionState).sent = s.sent from rfl]
        exact ⟨_, List.append_assoc _ _ _⟩
    · exact ⟨[], (List.append_nil _).symm⟩
  · exact ⟨[], (List.append_nil _).symm⟩

theorem hld_ready (s : SessionState) (dl : String) (conf : Rat) :
    (_handle_language_detection s dl conf).connectedEvent = true →
      s.connectedEvent = true ∨
        ∃ fr ∈ (_handle_language_detection s dl conf).sent, fr.etype = "session.update" := by
  simp only [_handle_language_detection]
  split
  · split
    · rw [auto_switch_eq]
      intro hc
      simp only [broadcast_connectedEvent, broadcast_sent, vup_connectedEvent, vup_sent,
        pushFrame_connectedEvent, pushFrame_sent, if_true] at hc ⊢
      split at hc
      · exact Or.inl hc
      · rcases connect_connectedEvent_ready _ hc with h1 | ⟨fr, hmem, hfr⟩
        · exact Or.inl h1
        · refine Or.inr ⟨fr, ?_, hfr⟩
          rw [show (if _ws_is_open ({ s with detectedLanguage := some dl, detectionConfidence := conf } : SessionState) = true then ({ s with detectedLanguage := some dl, detectionConfidence := conf } : SessionState) else connect ({ s with detectedLanguage := some dl, detectionConfidence := conf } : SessionState)) = connect ({ s with detectedLanguage := some dl, detectionConfidence := conf } : SessionState) from by rw [if_neg (by assumption)]]
          exact List.mem_append.mpr (Or.inl hmem)
    · exact fun hc => Or.inl hc
  · exact fun hc => Or.inl hc

theorem htc_avatarConnected (s : SessionState) (e : List (String × PyVal)) :
    (handleTranscriptionCompleted s e).avatarConnected = s.avatarConnected := by
  simp only [handleTranscriptionCompleted]
  repeat' split
  all_goals first
    | exact rfl
    | exact (broadcast_avatarConnected _ _).trans (hld_avatarConnected _ _ _)

theorem htc_sent_extends (s : SessionState) (e : List (String × PyVal)) :
    ∃ fs, (handleTranscriptionCompleted s e).sent = s.sent ++ fs := by
  simp only [handleTranscriptionCompleted]
  repeat' split
  all_goals first
    | exact ⟨[], (List.append_nil _).symm⟩
    | (rw [broadcast_sent]; exact hld_sent_extends _ _ _)

theorem htc_ready (s : SessionState) (e : List (String × PyVal)) :
    (handleTranscriptionCompleted s e).connectedEvent = true →
      s.connectedEvent = true ∨
        ∃ fr ∈ (handleTranscriptionCompleted s e).sent, fr.etype = "session.update" := by
  simp only [handleTranscriptionCompleted]
  repeat' split
  all_goals first
    | exact fun hc => Or.inl hc
    | (intro hc
       rw [broadcast_connectedEvent] at hc
       rcases hld_ready _ _ _ hc with h1 | ⟨fr, hm, hf⟩
       · exact Or.inl h1
       · exact Or.inr ⟨fr, by rw [broadcast_sent]; exact hm, hf⟩)

theorem hac_avatarConnected (s : SessionState) (e : List (String × PyVal)) :
    (handleAvatarConnecting s e).avatarConnected = s.avatarConnected := by
  simp only [handleAvatarConnecting]
  repeat' split
  all_goals exact rfl

theorem hac_sent (s : SessionState) (e : List (String × PyVal)) :
    (handleAvatarConnecting s e).sent = s.sent := by
  simp only [handleAvatarConnecting]
  repeat' split
  all_goals exact rfl

theorem hac_connectedEvent (s : SessionState) (e : List (String × PyVal)) :
    (handleAvatarConnecting s e).connectedEvent = s.connectedEvent := by
  simp only [handleAvatarConnecting]
  repeat' split
  all_goals exact rfl

theorem had_avatarConnected (s : SessionState) :
    (handleAvatarDisconnected s).avatarConnected = false := by
  simp only [handleAvatarDisconnected]
  repeat' split
  all_goals exact rfl

theorem had_sent (s : SessionState) : (handleAvatarDisconnected s).sent = s.sent := by
  simp only [handleAvatarDisconnected]
  repeat' split
  all_goals exact rfl

theorem had_connectedEvent (s : SessionState) :
    (handleAvatarDisconnected s).connectedEvent = s.connectedEvent := by
  simp only [handleAvatarDisconnected]
  repeat' split
  all_goals exact rfl

theorem hl_avatarConnected (s : SessionState) (e : List (String × PyVal)) :
    (handleLanguageDetected s e).avatarConnected = s.avatarConnected := by
  simp only [handleLanguageDetected]
  repeat' split
  all_goals first
    | exact rfl
    | exact (broadcast_avatarConnected _ _).trans (hld_avatarConnected _ _ _)

theorem hl_sent_extends (s : SessionState) (e : List (String × PyVal)) :
    ∃ fs, (handleLanguageDetected s e).sent = s.sent ++ fs := by
  simp only [handleLanguageDetected]
  repeat' split
  all_goals first
    | exact ⟨[], (List.append_nil _).symm⟩
    | (rw [broadcast_sent]; exact hld_sent_extends _ _ _)

theorem hl_ready (s : SessionState) (e : List (String × PyVal)) :
    (handleLanguageDetected s e).connectedEvent = true →
      s.connectedEvent = true ∨
        ∃ fr ∈ (handleLanguageDetected s e).sent, fr.etype = "session.update" := by
  simp only [handleLanguageDetected]
  repeat' split
  all_goals first
    | exact fun hc => Or.inl hc
    | (intro hc
       rw [broadcast_connectedEvent] at hc
       rcases hld_ready _ _ _ hc with h1 | ⟨fr, hm, hf⟩
       · exact Or.inl h1
       · exact Or.inr ⟨fr, by rw [broadcast_sent]; exact hm, hf⟩)

theorem htd_avatarConnected (s : SessionState) (e : List (String × PyVal)) :
    (handleTranscriptionDelta s e).avatarConnected = s.avatarConnected := by
  simp only [handleTranscriptionDelta]
  repeat' split
  all_goals exact rfl

theorem htd_sent (s : SessionState) (e : List (String × PyVal)) :
    (handleTranscriptionDelta s e).sent = s.sent := by
  simp only [handleTranscriptionDelta]
  repeat' split
  all_goals exact rfl

theorem htd_connectedEvent (s : SessionState) (e : List (String × PyVal)) :
    (handleTranscriptionDelta s e).connectedEvent = s.connectedEvent := by
  simp only [handleTranscriptionDelta]
  repeat' split
  all_goals exact rfl

set_option maxRecDepth 8192 in
theorem handleUpstreamEvent_cases (s : SessionState) (e : List (String × PyVal)) :
    handleUpstreamEvent s e = _broadcast s (evError e) ∨
    handleUpstreamEvent s e = _broadcast s (evAudioDelta e) ∨
    handleUpstreamEvent s e = _broadcast s (evAudioDone e) ∨
    handleUpstreamEvent s e = _broadcast s (evTranscriptDelta e) ∨
    handleUpstreamEvent s e = _broadcast s (evTranscriptDone e) ∨
    handleUpstreamEvent s e = handleTranscriptionCompleted s e ∨
    handleUpstreamEvent s e = _broadcast s evSpeechStarted ∨
    handleUpstreamEvent s e = _broadcast s evSpeechStopped ∨
    handleUpstreamEvent s e = _broadcast s evAudioCommitted ∨
    handleUpstreamEvent s e = handleAvatarConnecting s e ∨
    handleUpstreamEvent s e = _broadcast s evAvatarConnected ∨
    handleUpstreamEvent s e = handleAvatarDisconnected s ∨
    handleUpstreamEvent s e = handleLanguageDetected s e ∨
    handleUpstreamEvent s e = handleTranscriptionDelta s e ∨
    handleUpstreamEvent s e = _broadcast s (evResponseDone e) ∨
    handleUpstreamEvent s e = _broadcast s (evPassthrough e) := by
  unfold handleUpstreamEvent
  by_cases h1 : pyGetStr e "type" = some "error"
  · rw [if_pos h1]
    exact Or.inl rfl
  · rw [if_neg h1]
    by_cases h2 : pyGetStr e "type" = some "response.audio.delta"
    · rw [if_pos h2]
      exact Or.inr (Or.inl rfl)
    · rw [if_neg h2]
      by_cases h3 : pyGetStr e "type" = some "response.audio.done"
      · rw [if_pos h3]
        exact Or.inr (Or.inr (Or.inl rfl))
      · rw [if_neg h3]
        by_cases h4 : pyGetStr e "type" = some "response.audio_transcript.delta"
        · rw [if_pos h4]
          exact Or.inr (Or.inr (Or.inr (Or.inl rfl)))
        · rw [if_neg h4]
          by_cases h5 : pyGetStr e "type" = some "response.audio_transcript.done"
          · rw [if_pos h5]
            exact Or.inr (Or.inr (Or.inr (Or.inr (Or.inl rfl))))
          · rw [if_neg h5]
            by_cases h6 : pyGetStr e "type" = some "conversation.item.input_audio_transcription.completed"
            · rw [if_pos h6]
              exact Or.inr (Or.inr (Or.inr (Or.inr (Or.inr (Or.inl rfl)))))
            · rw [if_neg h6]
              by_cases h7 : pyGetStr e "type" = some "input_audio_buffer.speech_started"
              · rw [if_pos h7]
                exact Or.inr (Or.inr (Or.inr (Or.inr (Or.inr (Or.inr (Or.inl rfl))))))
              · rw [if_neg h7]
                by_cases h8 : pyGetStr e "type" = some "input_audio_buffer.speech_stopped"
                · rw [if_pos h8]
                  exact Or.inr (Or.inr (Or.inr (Or.inr (Or.inr (Or.inr (Or.inr (Or.inl rfl)))))))
                · rw [if_neg h8]
                  by_cases h9 : pyGetStr e "type" = some "input_audio_buffer.committed"
                  · rw [if_pos h9]
                    exact Or.inr (Or.inr (Or.inr (Or.inr (Or.inr (Or.inr (Or.inr (Or.inr (Or.inl rfl))))))))
                  · rw [if_neg h9]
                    by_cases h10 : pyGetStr e "type" = some "session.avatar.connecting"
                    · rw [if_pos h10]
                      exact Or.inr (Or.inr (Or.inr (Or.inr (Or.inr (Or.inr (Or.inr (Or.inr (Or.inr (Or.inl rfl)))))))))
                    · rw [if_neg h10]
                      by_cases h11 : pyGetStr e "type" = some "session.avatar.connected"
                      · rw [if_pos h11]
                        exact Or.inr (Or.inr (Or.inr (Or.inr (Or.inr (Or.inr (Or.inr (Or.inr (Or.inr (Or.inr (Or.inl rfl))))))))))
                      · rw [if_neg h11]
                        by_cases h12 : pyGetStr e "type" = some "session.avatar.disconnected"
                        · rw [if_pos h12]
                          exact Or.inr (Or.inr (Or.inr (Or.inr (Or.inr (Or.inr (Or.inr (Or.inr (Or.inr (Or.inr (Or.inr (Or.inl rfl)))))))))))
                        · rw [if_neg h12]
                          by_cases h13 : pyGetStr e "type" = some "input_audio_buffer.language_detected"
                          · rw [if_pos h13]
                            exact Or.inr (Or.inr (Or.inr (Or.inr (Or.inr (Or.inr (Or.inr (Or.inr (Or.inr (Or.inr (Or.inr (Or.inr (Or.inl rfl))))))))))))
                          · rw [if_neg h13]
                            by_cases h14 : pyGetStr e "type" = some "conversation.item.input_audio_transcription.delta"
                            · rw [if_pos h14]
                              exact Or.inr (Or.inr (Or.inr (Or.inr (Or.inr (Or.inr (Or.inr (Or.inr (Or.inr (Or.inr (Or.inr (Or.inr (Or.inr (Or.inl rfl)))))))))))))
                            · rw [if_neg h14]
                              by_cases h15 : pyGetStr e "type" = some "response.done"
                              · rw [if_pos h15]
                                exact Or.inr (Or.inr (Or.inr (Or.inr (Or.inr (Or.inr (Or.inr (Or.inr (Or.inr (Or.inr (Or.inr (Or.inr (Or.inr (Or.inr (Or.inl rfl))))))))))))))
                              · rw [if_neg h15]
                                exact Or.inr (Or.inr (Or.inr (Or.inr (Or.inr (Or.inr (Or.inr (Or.inr (Or.inr (Or.inr (Or.inr (Or.inr (Or.inr (Or.inr (Or.inr (rfl)))))))))))))))

set_option maxRecDepth 8192 in
theorem dispatch_avatarConnected (s : SessionState) (e : List (String × PyVal)) :
    (handleUpstreamEvent s e).avatarConnected = s.avatarConnected ∨
      (handleUpstreamEvent s e).avatarConnected = false := by
  rcases handleUpstreamEvent_cases s e with
    h | h | h | h | h | h | h | h | h | h | h | h | h | h | h | h <;> rw [h]
  all_goals first
    | exact Or.inl rfl
    | exact Or.inl (htc_avatarConnected _ _)
    | exact Or.inl (hac_avatarConnected _ _)
    | exact Or.inr (had_avatarConnected _)
    | exact Or.inl (hl_avatarConnected _ _)
    | exact Or.inl (htd_avatarConnected _ _)

set_option maxRecDepth 8192 in
theorem dispatch_sent_extends (s : SessionState) (e : List (String × PyVal)) :
    ∃ fs, (handleUpstreamEvent s e).sent = s.sent ++ fs := by
  rcases handleUpstreamEvent_cases s e with
    h | h | h | h | h | h | h | h | h | h | h | h | h | h | h | h <;> rw [h]
  all_goals first
    | exact ⟨[], (List.append_nil _).symm⟩
    | exact htc_sent_extends _ _
    | exact ⟨[], (hac_sent _ _).trans (List.append_nil _).symm⟩
    | exact ⟨[], (had_sent _).trans (List.append_nil _).symm⟩
    | exact hl_sent_extends _ _
    | exact ⟨[], (htd_sent _ _).trans (List.append_nil _).symm⟩

set_option maxRecDepth 8192 in
theorem dispatch_ready (s : SessionState) (e : List (String × PyVal)) :
    (handleUpstreamEvent s e).connectedEvent = true →
      s.connectedEvent = true ∨
        ∃ fr ∈ (handleUpstreamEvent s e).sent, fr.etype = "session.update" := by
  rcases handleUpstreamEvent_cases s e with
    h | h | h | h | h | h | h | h | h | h | h | h | h | h | h | h <;> rw [h]
  all_goals first
    | exact fun hc => Or.inl hc
    | exact htc_ready _ _
    | exact fun hc => Or.inl ((hac_connectedEvent _ _).symm.trans hc)
    | exact fun hc => Or.inl ((had_connectedEvent _).symm.trans hc)
    | exact hl_ready _ _
    | exact fun hc => Or.inl ((htd_connectedEvent _ _).symm.trans hc)

/-! ### Claim theorems for the relay model -/

theorem listSetGetSelf {α : Type} (l : List α) (a : α) (n : Nat) (h : n < l.length) :
    (l.set n a).get? n = some a := by
  rw [List.get?_eq_getElem?, List.getElem?_set_self', List.getElem?_eq_getElem h]
  rfl

theorem listSetGetNe {α : Type} (l : List α) (a : α) (n m : Nat) (h : n ≠ m) :
    (l.set n a).get? m = l.get? m := by
  rw [List.get?_eq_getElem?, List.getElem?_set_ne h, List.get?_eq_getElem?]

theorem listGetSomeLt {α : Type} (l : List α) (n : Nat) (a : α) (h : l.get? n = some a) :
    n < l.length :=
  (List.get?_eq_some.mp h).1

/-- C4: every listener queue created by `create_event_queue` has fixed
capacity 200; `_broadcast` is a total function (it never raises and never
blocks): it keeps every listener registered (the listener list's length
is unchanged), drops the incoming event only for a listener whose queue
is full while counting a slow-consumer warning, and still appends the
event to every other listener's queue. -/
theorem C4_broadcast_drop_policy :
    (∀ s : SessionState,
      (create_event_queue s).2.maxsize = 200 ∧ (create_event_queue s).2.items = [] ∧
      (create_event_queue s).1.listeners = s.listeners ++ [⟨200, []⟩]) ∧
    (∀ (s : SessionState) (e : List (String × PyVal)),
      (_broadcast s e).listeners.length = s.listeners.length ∧
      (_broadcast s e).droppedCount =
        s.droppedCount + s.listeners.countP (fun q => decide (q.maxsize ≤ q.items.length)) ∧
      ∀ (i : Nat) (q : ListenerQueue), s.listeners.get? i = some q →
        (q.items.length < q.maxsize →
          (_broadcast s e).listeners.get? i = some ⟨q.maxsize, q.items ++ [e]⟩) ∧
        (q.maxsize ≤ q.items.length → (_broadcast s e).listeners.get? i = some q)) := by
  constructor
  · intro s
    exact ⟨rfl, rfl, rfl⟩
  · intro s e
    refine ⟨by simp [_broadcast], rfl, ?_⟩
    intro i q hq
    constructor
    · intro hlt
      show (s.listeners.map _).get? i = _
      rw [List.get?_eq_getElem?, List.getElem?_map, ← List.get?_eq_getElem?, hq]
      rw [Option.map_some']
      show some (match putNowait q e with | some q2 => q2 | none => q) = _
      rw [putNowait, if_pos hlt]
    · intro hge
      show (s.listeners.map _).get? i = _
      rw [List.get?_eq_getElem?, List.getElem?_map, ← List.get?_eq_getElem?, hq]
      rw [Option.map_some']
      show some (match putNowait q e with | some q2 => q2 | none => q) = _
      rw [putNowait, if_neg (by omega)]

def c4WitnessState : SessionState :=
  { initialSession "voice" "en-IN" [] with
    listeners := [⟨200, []⟩, ⟨200, List.replicate 200 []⟩] }

set_option maxRecDepth 4096 in
theorem C4_broadcast_drop_policy_witness :
    (_broadcast c4WitnessState [("type", PyVal.pstr "speech_started")]).listeners.get? 0 =
      some ⟨200, [[("type", PyVal.pstr "speech_started")]]⟩ ∧
    (_broadcast c4WitnessState [("type", PyVal.pstr "speech_started")]).listeners.get? 1 =
      some ⟨200, List.replicate 200 []⟩ :=
  ⟨((C4_broadcast_drop_policy.2 c4WitnessState _).2.2 0 ⟨200, []⟩ rfl).1 (by decide),
   ((C4_broadcast_drop_policy.2 c4WitnessState _).2.2 1 ⟨200, List.replicate 200 []⟩
      rfl).2 (by simp)⟩

/-- C5: `_send` with the link closed first invokes the given `connect`
when reconnection is allowed and then transmits on the reconnected link;
with reconnection disallowed (the initial configuration command), or with
the link still closed after the reconnect attempt, it raises the
connection `RuntimeError` and transmits no frame (the send returns only
the error — the frame push happens exclusively on the `ok` paths shown). -/
theorem C5_send_reconnect_policy (connectF : SessionState → SessionState) (s : SessionState)
    (et : String) (d : List (String × PyVal)) :
    (_ws_is_open s = true → ∀ ar : Bool, _send connectF s et d ar =
      Except.ok (pushFrame s et d)) ∧
    (_ws_is_open s = false →
      _send connectF s et d false = Except.error "Session websocket is not connected" ∧
      (_ws_is_open (connectF s) = false →
        _send connectF s et d true = Except.error "Session websocket is not connected") ∧
      (_ws_is_open (connectF s) = true →
        _send connectF s et d true = Except.ok (pushFrame (connectF s) et d))) := by
  constructor
  · intro hopen ar
    rw [_send, if_neg (by rw [hopen]; decide)]
  · intro hclosed
    refine ⟨?_, ?_, ?_⟩
    · rw [_send, if_pos hclosed]
      rw [show (if false = true then connectF s else s) = s from rfl, if_pos hclosed]
    · intro hstill
      rw [_send, if_pos hclosed]
      rw [show (if true = true then connectF s else s) = connectF s from rfl, if_pos hstill]
    · intro hres
      rw [_send, if_pos hclosed]
      rw [show (if true = true then connectF s else s) = connectF s from rfl,
        if_neg (by rw [hres]; decide)]

theorem C5_send_reconnect_policy_witness :
    _send connect (initialSession "voice" "en-IN" []) "response.create" [] false =
      Except.error "Session websocket is not connected" ∧
    _send connect (initialSession "voice" "en-IN" []) "response.create" [] true =
      Except.ok (pushFrame (connect (initialSession "voice" "en-IN" []))
        "response.create" []) :=
  ⟨((C5_send_reconnect_policy connect (initialSession "voice" "en-IN" [])
      "response.create" []).2 rfl).1,
   ((C5_send_reconnect_policy connect (initialSession "voice" "en-IN" [])
      "response.create" []).2 rfl).2.2 rfl⟩

/-- C7: when the session's avatar-connected flag is set, `connect_avatar`
raises the "only one avatar connection" `RuntimeError` immediately: the
session state is untouched — in particular no `session.avatar.connect`
frame and no other frame is sent upstream before the rejection. -/
theorem C7_connect_avatar_rejects_when_connected (m : Machine) (n : Nat) (t : AvatarTask)
    (m' : Machine) (hget : m.tasks.get? n = some t) (hpc : t.pc = AvatarPC.start)
    (hconn : m.sess.avatarConnected = true)
    (hstep : stepF (StepLabel.avatarStart n) m = some m') :
    m'.sess = m.sess ∧ m'.sess.sent = m.sess.sent ∧
    m'.tasks = m.tasks.set n { t with pc := AvatarPC.done (Except.error
      "Avatar is already connected. Only one avatar connection is allowed per session.") } := by
  obtain ⟨sdp, pc⟩ := t
  cases hpc
  simp only [stepF, connect_avatar_start, hget] at hstep
  by_cases hready : m.sess.connectedEvent = false
  · rw [if_pos hready] at hstep
    cases hstep
  · rw [if_neg hready, if_pos hconn] at hstep
    cases hstep
    exact ⟨rfl, rfl, rfl⟩

def c7WitnessMachine : Machine :=
  { sess := { initialSession "voice" "en-IN" [] with
      ws := some WsState.OPEN, receiveTask := true, connectedEvent := true,
      avatarConnected := true },
    tasks := [⟨"v=0 offer", AvatarPC.start⟩] }

theorem C7_connect_avatar_rejects_when_connected_witness :
    ∃ m' : Machine, stepF (StepLabel.avatarStart 0) c7WitnessMachine = some m' ∧
      m'.sess = c7WitnessMachine.sess ∧ m'.sess.sent = c7WitnessMachine.sess.sent :=
  ⟨_, rfl, (C7_connect_avatar_rejects_when_connected c7WitnessMachine 0
      ⟨"v=0 offer", AvatarPC.start⟩ _ rfl rfl rfl rfl).1,
    (C7_connect_avatar_rejects_when_connected c7WitnessMachine 0
      ⟨"v=0 offer", AvatarPC.start⟩ _ rfl rfl rfl rfl).2.1⟩

/-- C10: every completion path of `connect_avatar` — success, cancellation,
failure, and timeout — runs the `finally` block and sets the session's
`_avatar_future` slot to `None` unconditionally, even when the slot holds
a different, newer future installed by a superseding caller; any other
task still awaiting its own future is left awaiting it, so after a
superseded call unwinds the session records no pending negotiation future
although the superseding caller is still waiting for one. -/
theorem C10_finally_clears_slot (m : Machine) (n : Nat) (m' : Machine) :
    (stepF (StepLabel.avatarResume n) m = some m' →
      m'.sess.avatarFuture = none ∧ m'.sess.sent = m.sess.sent ∧
      ∀ (k : Nat) (tk : AvatarTask), k ≠ n → m.tasks.get? k = some tk →
        m'.tasks.get? k = some tk) ∧
    (stepF (StepLabel.avatarTimeout n) m = some m' →
      m'.sess.avatarFuture = none ∧ m'.sess.sent = m.sess.sent ∧
      ∀ (k : Nat) (tk : AvatarTask), k ≠ n → m.tasks.get? k = some tk →
        m'.tasks.get? k = some tk) := by
  constructor
  · intro hstep
    rcases hget : m.tasks.get? n with _ | ⟨sdp, pc⟩
    · rw [stepF, connect_avatar_resume, hget] at hstep
      cases hstep
    · rcases pc with _ | i | r
      · simp only [stepF, connect_avatar_resume, hget] at hstep
        exact Option.noConfusion hstep
      · rcases hfut : m.sess.futures.get? i with _ | fs
        · simp only [stepF, connect_avatar_resume, hget, hfut] at hstep
          exact Option.noConfusion hstep
        · rcases fs with _ | sdp2 | msg | _
          · simp only [stepF, connect_avatar_resume, hget, hfut] at hstep
            exact Option.noConfusion hstep
          · simp only [stepF, connect_avatar_resume, hget, hfut,
              Option.some.injEq] at hstep
            subst hstep
            exact ⟨rfl, rfl, fun k tk hk hgk => by
              rw [listSetGetNe _ _ _ _ (fun he => hk he.symm)]
              exact hgk⟩
          · simp only [stepF, connect_avatar_resume, hget, hfut,
              Option.some.injEq] at hstep
            subst hstep
            exact ⟨rfl, rfl, fun k tk hk hgk => by
              rw [listSetGetNe _ _ _ _ (fun he => hk he.symm)]
              exact hgk⟩
          · simp only [stepF, connect_avatar_resume, hget, hfut,
              Option.some.injEq] at hstep
            subst hstep
            exact ⟨rfl, rfl, fun k tk hk hgk => by
              rw [listSetGetNe _ _ _ _ (fun he => hk he.symm)]
              exact hgk⟩
      · simp only [stepF, connect_avatar_resume, hget] at hstep
        exact Option.noConfusion hstep
  · intro hstep
    rcases hget : m.tasks.get? n with _ | ⟨sdp, pc⟩
    · rw [stepF, connect_avatar_timeout, hget] at hstep
      cases hstep
    · rcases pc with _ | i | r
      · simp only [stepF, connect_avatar_timeout, hget] at hstep
        exact Option.noConfusion hstep
      · simp only [stepF, connect_avatar_timeout, hget] at hstep
        by_cases hfut : m.sess.futures.get? i = some FutureState.pending
        · rw [if_pos hfut, Option.some.injEq] at hstep
          subst hstep
          exact ⟨rfl, rfl, fun k tk hk hgk => by
            rw [listSetGetNe _ _ _ _ (fun he => hk he.symm)]
            exact hgk⟩
        · rw [if_neg hfut] at hstep
          cases hstep
      · simp only [stepF, connect_avatar_timeout, hget] at hstep
        exact Option.noConfusion hstep

def c10WitnessMachine : Machine :=
  { sess := { initialSession "voice" "en-IN" [] with
      ws := some WsState.OPEN, receiveTask := true, connectedEvent := true,
      futures := [FutureState.cancelled, FutureState.pending], avatarFuture := some 1 },
    tasks := [⟨"sdpA", AvatarPC.awaitFut 0⟩, ⟨"sdpB", AvatarPC.awaitFut 1⟩] }

theorem C10_finally_clears_slot_witness :
    ∃ m' : Machine, stepF (StepLabel.avatarResume 0) c10WitnessMachine = some m' ∧
      m'.sess.avatarFuture = none ∧
      m'.tasks.get? 1 = some ⟨"sdpB", AvatarPC.awaitFut 1⟩ := by
  refine ⟨_, rfl, ?_, ?_⟩
  · exact ((C10_finally_clears_slot c10WitnessMachine 0 _).1 rfl).1
  · exact ((C10_finally_clears_slot c10WitnessMachine 0 _).1 rfl).2.2 1
      ⟨"sdpB", AvatarPC.awaitFut 1⟩ (by decide) rfl

/-! ### Step-level helper lemmas for the avatar coroutine and link -/

theorem cancelPendingSlot_connectedEvent (s : SessionState) :
    (cancelPendingSlot s).connectedEvent = s.connectedEvent := by
  rw [cancelPendingSlot]
  split
  · split <;> rfl
  · rfl

theorem cancelPendingSlot_sent (s : SessionState) :
    (cancelPendingSlot s).sent = s.sent := by
  rw [cancelPendingSlot]
  split
  · split <;> rfl
  · rfl

theorem cancelPendingSlot_avatarConnected (s : SessionState) :
    (cancelPendingSlot s).avatarConnected = s.avatarConnected := by
  rw [cancelPendingSlot]
  split
  · split <;> rfl
  · rfl

theorem avatarArmState_connectedEvent (s : SessionState) :
    (avatarArmState s).connectedEvent = s.connectedEvent :=
  cancelPendingSlot_connectedEvent s

theorem avatarArmState_sent (s : SessionState) :
    (avatarArmState s).sent = s.sent :=
  cancelPendingSlot_sent s

theorem avatarArmState_avatarConnected (s : SessionState) :
    (avatarArmState s).avatarConnected = s.avatarConnected :=
  cancelPendingSlot_avatarConnected s

theorem connect_connectedEvent_of_closed (s : SessionState)
    (h : _ws_is_open s = false) : (connect s).connectedEvent = true := by
  rw [connect, if_neg (by rw [h]; exact Bool.false_ne_true)]

/-- Exhaustive description of a successful `avatarStart` step: either the
rejection branch fired and the session is untouched, or the send failed
and the session is the armed state, or the send succeeded. -/
theorem start_sess_cases (m : Machine) (n : Nat) (m' : Machine)
    (h : stepF (StepLabel.avatarStart n) m = some m') :
    m'.sess = m.sess ∨ m'.sess = avatarArmState m.sess ∨
    ∃ d s3, _send connect (avatarArmState m.sess) "session.avatar.connect" d true =
      Except.ok s3 ∧ m'.sess = s3 := by
  rcases hget : m.tasks.get? n with _ | ⟨sdp, pc⟩
  · rw [stepF, connect_avatar_start, hget] at h
    cases h
  · rcases pc with _ | i | r
    · simp only [stepF, connect_avatar_start, hget] at h
      by_cases hre : m.sess.connectedEvent = false
      · rw [if_pos hre] at h
        exact Option.noConfusion h
      · rw [if_neg hre] at h
        by_cases hav : m.sess.avatarConnected = true
        · rw [if_pos hav, Option.some.injEq] at h
          subst h
          exact Or.inl rfl
        · rw [if_neg hav] at h
          rcases hsend : _send connect (avatarArmState m.sess) "session.avatar.connect"
              (avatarConnectPayload sdp) true with e | s3
          · simp only [hsend, Option.some.injEq] at h
            subst h
            exact Or.inr (Or.inl rfl)
          · simp only [hsend, Option.some.injEq] at h
            subst h
            exact Or.inr (Or.inr ⟨avatarConnectPayload sdp, s3, hsend, rfl⟩)
    · simp only [stepF, connect_avatar_start, hget] at h
      exact Option.noConfusion h
    · simp only [stepF, connect_avatar_start, hget] at h
      exact Option.noConfusion h

/-- Exhaustive description of a successful `avatarResume` step. -/
theorem resume_cases (m : Machine) (n : Nat) (m' : Machine)
    (h : stepF (StepLabel.avatarResume n) m = some m') :
    ∃ t i, m.tasks.get? n = some t ∧ t.pc = AvatarPC.awaitFut i ∧
      ((∃ d, m.sess.futures.get? i = some (FutureState.resolved d) ∧
          m'.sess = { m.sess with avatarConnected := true, avatarFuture := none }) ∨
        (m.sess.futures.get? i = some FutureState.cancelled ∧
          m'.sess = { m.sess with avatarFuture := none }) ∨
        (∃ msg, m.sess.futures.get? i = some (FutureState.failed msg) ∧
          m'.sess = { m.sess with avatarFuture := none })) := by
  rcases hget : m.tasks.get? n with _ | ⟨sdp, pc⟩
  · rw [stepF, connect_avatar_resume, hget] at h
    cases h
  · rcases pc with _ | i | r
    · simp only [stepF, connect_avatar_resume, hget] at h
      exact Option.noConfusion h
    · refine ⟨⟨sdp, AvatarPC.awaitFut i⟩, i, rfl, rfl, ?_⟩
      rcases hfut : m.sess.futures.get? i with _ | fs
      · simp only [stepF, connect_avatar_resume, hget, hfut] at h
        exact Option.noConfusion h
      · rcases fs with _ | d | msg | _
        · simp only [stepF, connect_avatar_resume, hget, hfut] at h
          exact Option.noConfusion h
        · simp only [stepF, connect_avatar_resume, hget, hfut, Option.some.injEq] at h
          subst h
          exact Or.inl ⟨d, rfl, rfl⟩
        · simp only [stepF, connect_avatar_resume, hget, hfut, Option.some.injEq] at h
          subst h
          exact Or.inr (Or.inr ⟨msg, rfl, rfl⟩)
        · simp only [stepF, connect_avatar_resume, hget, hfut, Option.some.injEq] at h
          subst h
          exact Or.inr (Or.inl ⟨rfl, rfl⟩)
    · simp only [stepF, connect_avatar_resume, hget] at h
      exact Option.noConfusion h

/-- Exhaustive description of a successful `avatarTimeout` step. -/
theorem timeout_cases (m : Machine) (n : Nat) (m' : Machine)
    (h : stepF (StepLabel.avatarTimeout n) m = some m') :
    ∃ t i, m.tasks.get? n = some t ∧ t.pc = AvatarPC.awaitFut i ∧
      m.sess.futures.get? i = some FutureState.pending ∧
      m'.sess = { m.sess with
        futures := m.sess.futures.set i FutureState.cancelled,
        avatarFuture := none } := by
  rcases hget : m.tasks.get? n with _ | ⟨sdp, pc⟩
  · rw [stepF, connect_avatar_timeout, hget] at h
    cases h
  · rcases pc with _ | i | r
    · simp only [stepF, connect_avatar_timeout, hget] at h
      exact Option.noConfusion h
    · simp only [stepF, connect_avatar_timeout, hget] at h
      by_cases hfut : m.sess.futures.get? i = some FutureState.pending
      · rw [if_pos hfut, Option.some.injEq] at h
        subst h
        exact ⟨⟨sdp, AvatarPC.awaitFut i⟩, i, rfl, rfl, hfut, rfl⟩
      · rw [if_neg hfut] at h
        exact Option.noConfusion h
    · simp only [stepF, connect_avatar_timeout, hget] at h
      exact Option.noConfusion h

/-- Exhaustive description of a successful `disconnectAvatar` step. -/
theorem davatar_cases (m m' : Machine)
    (h : stepF StepLabel.disconnectAvatar m = some m') :
    m.sess.connectedEvent = true ∧
    ((m' = m ∧ m.sess.avatarConnected = false) ∨
      (m'.sess.avatarConnected = false ∧ m'.sess.connectedEvent = true ∧
        ∃ fs, m'.sess.sent = m.sess.sent ++ fs)) := by
  rw [stepF, disconnect_avatar_step] at h
  by_cases hce : m.sess.connectedEvent = false
  · rw [if_pos hce] at h
    exact Option.noConfusion h
  · have hce' : m.sess.connectedEvent = true := by
      cases hb : m.sess.connectedEvent
      · exact absurd hb hce
      · rfl
    rw [if_neg hce] at h
    refine ⟨hce', ?_⟩
    by_cases hav : m.sess.avatarConnected = false
    · rw [if_pos hav, Option.some.injEq] at h
      exact Or.inl ⟨h.symm, hav⟩
    · rw [if_neg hav, send_connect_eq] at h
      by_cases hopen : _ws_is_open m.sess = true
      · rw [if_pos hopen] at h
        simp only [Option.some.injEq] at h
        subst h
        refine Or.inr ⟨?_, ?_, ?_⟩
        · repeat' split
          all_goals rfl
        · repeat' split
          all_goals exact hce'
        · refine ⟨[⟨"session.avatar.disconnect", []⟩], ?_⟩
          repeat' split
          all_goals exact pushFrame_sent m.sess _ _
      · rw [if_neg hopen] at h
        simp only [Option.some.injEq] at h
        subst h
        have hclosed : _ws_is_open m.sess = false := by rwa [Bool.not_eq_true] at hopen
        refine Or.inr ⟨?_, ?_, ?_⟩
        · repeat' split
          all_goals rfl
        · repeat' split
          all_goals exact connect_connectedEvent_of_closed m.sess hclosed
        · refine ⟨[⟨"session.update", sessionConfigData m.sess⟩,
            ⟨"session.avatar.disconnect", []⟩], ?_⟩
          repeat' split
          all_goals
            show (pushFrame (connect m.sess) "session.avatar.disconnect" []).sent = _
          all_goals
            rw [pushFrame_sent, connect_sent_of_closed m.sess hclosed,
              List.append_assoc]
          all_goals rfl

theorem readyInv_bridge (s s' : SessionState)
    (hready : s'.connectedEvent = true →
      s.connectedEvent = true ∨ ∃ fr ∈ s'.sent, fr.etype = "session.update")
    (hext : ∃ fs, s'.sent = s.sent ++ fs)
    (hinv : s.connectedEvent = true → ∃ fr ∈ s.sent, fr.etype = "session.update") :
    s'.connectedEvent = true → ∃ fr ∈ s'.sent, fr.etype = "session.update" := by
  intro hc
  rcases hready hc with h1 | h2
  · rcases hinv h1 with ⟨fr, hm, hf⟩
    rcases hext with ⟨fs, he⟩
    exact ⟨fr, by rw [he]; exact List.mem_append.mpr (Or.inl hm), hf⟩
  · exact h2

/-- Every step of the machine preserves the invariant "if the ready event
is set, a `session.update` configuration frame has been sent". -/
theorem readyInv_step (l : StepLabel) (m m' : Machine) (h : stepF l m = some m')
    (hinv : m.sess.connectedEvent = true →
      ∃ fr ∈ m.sess.sent, fr.etype = "session.update") :
    m'.sess.connectedEvent = true → ∃ fr ∈ m'.sess.sent, fr.etype = "session.update" := by
  cases l with
  | connectLink =>
    rw [stepF, Option.some.injEq] at h
    subst h
    exact readyInv_bridge m.sess (connect m.sess) (connect_connectedEvent_ready m.sess)
      (connect_sent_extends m.sess) hinv
  | disconnectLink =>
    rw [stepF, Option.some.injEq] at h
    subst h
    exact fun hc => Bool.noConfusion hc
  | recv e =>
    rw [stepF] at h
    by_cases hrt : m.sess.receiveTask = true
    · rw [if_pos hrt, Option.some.injEq] at h
      subst h
      exact readyInv_bridge m.sess (handleUpstreamEvent m.sess e)
        (dispatch_ready m.sess e) (dispatch_sent_extends m.sess e) hinv
    · rw [if_neg hrt] at h
      exact Option.noConfusion h
  | avatarStart n =>
    rcases start_sess_cases m n m' h with h1 | h1 | ⟨d, s3, hsend, h1⟩
    · intro hc
      rw [h1] at hc ⊢
      exact hinv hc
    · intro hc
      rw [h1, avatarArmState_connectedEvent] at hc
      rw [h1, avatarArmState_sent]
      exact hinv hc
    · refine readyInv_bridge m.sess m'.sess ?_ ?_ hinv
      · intro hc
        rw [h1] at hc
        rcases send_connect_ready _ _ _ _ hsend hc with h2 | h2
        · exact Or.inl (by rwa [avatarArmState_connectedEvent] at h2)
        · rw [h1]
          exact Or.inr h2
      · obtain ⟨fs, hfs⟩ := send_connect_sent_extends _ _ _ _ hsend
        rw [h1, hfs, avatarArmState_sent]
        exact ⟨fs, rfl⟩
  | avatarResume n =>
    rcases resume_cases m n m' h with ⟨t, i, _, _, hc3⟩
    have hsess : m'.sess.connectedEvent = m.sess.connectedEvent ∧
        m'.sess.sent = m.sess.sent := by
      rcases hc3 with ⟨d, _, he⟩ | ⟨_, he⟩ | ⟨msg, _, he⟩ <;> rw [he] <;> exact ⟨rfl, rfl⟩
    intro hc
    rw [hsess.2]
    exact hinv (hsess.1 ▸ hc)
  | avatarTimeout n =>
    rcases timeout_cases m n m' h with ⟨t, i, _, _, _, he⟩
    intro hc
    rw [he] at hc ⊢
    exact hinv hc
  | disconnectAvatar =>
    rcases davatar_cases m m' h with ⟨hce, hd | ⟨-, -, fs, hfs⟩⟩
    · intro hc
      rw [hd.1] at hc ⊢
      exact hinv hc
    · intro _
      rcases hinv hce with ⟨fr, hm, hf⟩
      exact ⟨fr, by rw [hfs]; exact List.mem_append.mpr (Or.inl hm), hf⟩

theorem readyInv_reachable (m : Machine) (h : Reachable m) :
    m.sess.connectedEvent = true → ∃ fr ∈ m.sess.sent, fr.etype = "session.update" := by
  induction h with
  | init vn tl langs sdps => exact fun hc => Bool.noConfusion hc
  | step l m m' hr hstep ih => exact readyInv_step l m m' hstep ih

/-- C3: `connect` is idempotent — with the upstream link already open it
returns the session unchanged, and `connect (connect s) = connect s`, so
under any interleaving of (lock-serialised) connect calls at most one
link is ever opened from a given closed state; on a closed session it
opens exactly one new link (`openedCount` rises by one), starts the
receive loop, appends exactly the `session.update` configuration frame,
and sets the ready signal; and in every reachable machine the ready
signal being set implies a `session.update` configuration frame is
already among the sent frames, so waiters on the ready signal cannot
send ahead of the configuration command. -/
theorem C3_connect_idempotent_and_ready :
    (∀ s : SessionState, _ws_is_open s = true → connect s = s) ∧
    (∀ s : SessionState, connect (connect s) = connect s) ∧
    (∀ s : SessionState, _ws_is_open s = false →
      (connect s).openedCount = s.openedCount + 1 ∧
      _ws_is_open (connect s) = true ∧
      (connect s).receiveTask = true ∧
      (connect s).sent = s.sent ++ [⟨"session.update", sessionConfigData s⟩] ∧
      (connect s).connectedEvent = true) ∧
    (∀ m : Machine, Reachable m → m.sess.connectedEvent = true →
      ∃ fr ∈ m.sess.sent, fr.etype = "session.update") := by
  refine ⟨connect_of_open, ?_, ?_, readyInv_reachable⟩
  · intro s
    exact connect_of_open (connect s) (connect_opens s)
  · intro s hclosed
    have hne : ¬(_ws_is_open s = true) := by rw [hclosed]; exact Bool.false_ne_true
    refine ⟨?_, connect_opens s, ?_, connect_sent_of_closed s hclosed, ?_⟩
    · rw [connect, if_neg hne]
      rfl
    · rw [connect, if_neg hne]
      rfl
    · rw [connect, if_neg hne]

theorem C3_connect_idempotent_and_ready_witness :
    connect (connect (initialSession "voice" "en-IN" [])) =
      connect (initialSession "voice" "en-IN" []) ∧
    (connect (initialSession "voice" "en-IN" [])).openedCount = 0 + 1 ∧
    (connect (initialSession "voice" "en-IN" [])).connectedEvent = true ∧
    ∃ fr ∈ (connect (initialSession "voice" "en-IN" [])).sent,
      fr.etype = "session.update" :=
  ⟨C3_connect_idempotent_and_ready.2.1 (initialSession "voice" "en-IN" []),
   (C3_connect_idempotent_and_ready.2.2.1 (initialSession "voice" "en-IN" []) rfl).1,
   (C3_connect_idempotent_and_ready.2.2.1 (initialSession "voice" "en-IN" []) rfl).2.2.2.2,
   C3_connect_idempotent_and_ready.2.2.2
     ⟨connect (initialSession "voice" "en-IN" []), []⟩
     (Reachable.step StepLabel.connectLink ⟨initialSession "voice" "en-IN" [], []⟩ _
       (Reachable.init "voice" "en-IN" [] []) rfl) rfl⟩

/-- C8: the avatar-connected flag becomes true only by an `avatarResume`
step whose awaited future is resolved (a successful negotiation), and a
successful resume does set it; `disconnect_avatar` always leaves it
false; an upstream `session.avatar.disconnected` event clears it, cancels
a pending negotiation (clearing the slot) and broadcasts
`avatar_disconnected`; and a timed-out negotiation never changes it (a
cancelled or failed resume leaves the session's flag unchanged as well,
by the first part). -/
theorem C8_avatar_flag_lifecycle :
    (∀ (l : StepLabel) (m m' : Machine), stepF l m = some m' →
      m'.sess.avatarConnected = true →
      m.sess.avatarConnected = true ∨
      ∃ n t i d, l = StepLabel.avatarResume n ∧ m.tasks.get? n = some t ∧
        t.pc = AvatarPC.awaitFut i ∧
        m.sess.futures.get? i = some (FutureState.resolved d)) ∧
    (∀ (m : Machine) (n : Nat) (m' : Machine) (t : AvatarTask) (i : Nat) (d : String),
      stepF (StepLabel.avatarResume n) m = some m' → m.tasks.get? n = some t →
      t.pc = AvatarPC.awaitFut i →
      m.sess.futures.get? i = some (FutureState.resolved d) →
      m'.sess.avatarConnected = true) ∧
    (∀ m m' : Machine, stepF StepLabel.disconnectAvatar m = some m' →
      m'.sess.avatarConnected = false) ∧
    (∀ (m : Machine) (n : Nat) (m' : Machine),
      stepF (StepLabel.avatarTimeout n) m = some m' →
      m'.sess.avatarConnected = m.sess.avatarConnected) ∧
    (∀ (s : SessionState) (e : List (String × PyVal)),
      pyGetStr e "type" = some "session.avatar.disconnected" →
      handleUpstreamEvent s e = handleAvatarDisconnected s ∧
      (handleAvatarDisconnected s).avatarConnected = false ∧
      (handleAvatarDisconnected s).broadcastLog =
        s.broadcastLog ++ [[("type", PyVal.pstr "avatar_disconnected")]] ∧
      ∀ i, s.avatarFuture = some i → s.futures.get? i = some FutureState.pending →
        (handleAvatarDisconnected s).futures.get? i = some FutureState.cancelled ∧
        (handleAvatarDisconnected s).avatarFuture = none) := by
  refine ⟨?_, ?_, ?_, ?_, ?_⟩
  · intro l m m' h hc
    cases l with
    | connectLink =>
      rw [stepF, Option.some.injEq] at h
      subst h
      have hc' : (connect m.sess).avatarConnected = true := hc
      rw [connect_avatarConnected] at hc'
      exact Or.inl hc'
    | disconnectLink =>
      rw [stepF, Option.some.injEq] at h
      subst h
      exact Or.inl hc
    | recv e =>
      rw [stepF] at h
      by_cases hrt : m.sess.receiveTask = true
      · rw [if_pos hrt, Option.some.injEq] at h
        subst h
        have hc' : (handleUpstreamEvent m.sess e).avatarConnected = true := hc
        rcases dispatch_avatarConnected m.sess e with h2 | h2
        · rw [h2] at hc'
          exact Or.inl hc'
        · rw [h2] at hc'
          exact Bool.noConfusion hc'
      · rw [if_neg hrt] at h
        exact Option.noConfusion h
    | avatarStart n =>
      rcases start_sess_cases m n m' h with h1 | h1 | ⟨d, s3, hsend, h1⟩
      · rw [h1] at hc
        exact Or.inl hc
      · rw [h1, avatarArmState_avatarConnected] at hc
        exact Or.inl hc
      · rw [h1, send_connect_avatarConnected _ _ _ _ hsend,
          avatarArmState_avatarConnected] at hc
        exact Or.inl hc
    | avatarResume n =>
      rcases resume_cases m n m' h with ⟨t, i, hget, hpc, hc3⟩
      rcases hc3 with ⟨d, hfut, he⟩ | ⟨hfut, he⟩ | ⟨msg, hfut, he⟩
      · exact Or.inr ⟨n, t, i, d, rfl, hget, hpc, hfut⟩
      · rw [he] at hc
        exact Or.inl hc
      · rw [he] at hc
        exact Or.inl hc
    | avatarTimeout n =>
      rcases timeout_cases m n m' h with ⟨t, i, -, -, -, he⟩
      rw [he] at hc
      exact Or.inl hc
    | disconnectAvatar =>
      rcases davatar_cases m m' h with ⟨-, ⟨hm, hf⟩ | ⟨hf, -, -⟩⟩
      · rw [hm] at hc
        exact Or.inl hc
      · rw [hf] at hc
        exact Bool.noConfusion hc
  · intro m n m' t i d hstep hget hpc hfut
    rcases resume_cases m n m' hstep with ⟨t2, i2, hget2, hpc2, hc3⟩
    rw [hget, Option.some.injEq] at hget2
    subst hget2
    rw [hpc] at hpc2
    obtain rfl : i = i2 := by
      injection hpc2
    rcases hc3 with ⟨d2, hfut2, he⟩ | ⟨hfut2, he⟩ | ⟨msg, hfut2, he⟩
    · rw [he]
    · rw [hfut] at hfut2
      exact FutureState.noConfusion (Option.some.inj hfut2)
    · rw [hfut] at hfut2
      exact FutureState.noConfusion (Option.some.inj hfut2)
  · intro m m' h
    rcases davatar_cases m m' h with ⟨-, ⟨hm, hf⟩ | ⟨hf, -, -⟩⟩
    · rw [hm]
      exact hf
    · exact hf
  · intro m n m' h
    rcases timeout_cases m n m' h with ⟨t, i, -, -, -, he⟩
    rw [he]
  · intro s e htype
    refine ⟨?_, had_avatarConnected s, ?_, ?_⟩
    · rw [handleUpstreamEvent,
        if_neg (show ¬_ from by rw [htype]; decide),
        if_neg (show ¬_ from by rw [htype]; decide),
        if_neg (show ¬_ from by rw [htype]; decide),
        if_neg (show ¬_ from by rw [htype]; decide),
        if_neg (show ¬_ from by rw [htype]; decide),
        if_neg (show ¬_ from by rw [htype]; decide),
        if_neg (show ¬_ from by rw [htype]; decide),
        if_neg (show ¬_ from by rw [htype]; decide),
        if_neg (show ¬_ from by rw [htype]; decide),
        if_neg (show ¬_ from by rw [htype]; decide),
        if_neg (show ¬_ from by rw [htype]; decide),
        if_pos htype]
    · simp only [handleAvatarDisconnected]
      repeat' split
      all_goals rfl
    · intro i hf hp
      simp only [handleAvatarDisconnected, hf]
      rw [if_pos hp]
      constructor
      · show (s.futures.set i FutureState.cancelled).get? i = some FutureState.cancelled
        exact listSetGetSelf _ _ _ (listGetSomeLt _ _ _ hp)
      · rfl

def c8ResumeMachine : Machine :=
  { sess := { initialSession "voice" "en-IN" [] with
      ws := some WsState.OPEN, receiveTask := true, connectedEvent := true,
      futures := [FutureState.resolved "v=0 answer"], avatarFuture := some 0 },
    tasks := [⟨"v=0 offer", AvatarPC.awaitFut 0⟩] }

def c8DiscState : SessionState :=
  { initialSession "voice" "en-IN" [] with
    avatarConnected := true, avatarFuture := some 0, futures := [FutureState.pending] }

theorem C8_avatar_flag_lifecycle_witness :
    (∃ m', stepF (StepLabel.avatarResume 0) c8ResumeMachine = some m' ∧
      m'.sess.avatarConnected = true) ∧
    (handleAvatarDisconnected c8DiscState).avatarConnected = false ∧
    (handleAvatarDisconnected c8DiscState).futures.get? 0 = some FutureState.cancelled ∧
    (handleAvatarDisconnected c8DiscState).avatarFuture = none := by
  have h5 := C8_avatar_flag_lifecycle.2.2.2.2 c8DiscState
    [("type", PyVal.pstr "session.avatar.disconnected")] (by decide)
  have h6 := h5.2.2.2 0 rfl rfl
  exact ⟨⟨_, rfl, C8_avatar_flag_lifecycle.2.1 c8ResumeMachine 0 _
      ⟨"v=0 offer", AvatarPC.awaitFut 0⟩ 0 "v=0 answer" rfl rfl rfl rfl⟩,
    h5.2.1, h6.1, h6.2⟩

/-- C6: an upstream `session.avatar.connecting` event is routed to the
avatar-connecting handler; in every case the handler broadcasts exactly
one `avatar_connecting` event to the listeners; and when a negotiation
future is pending in the slot, it is resolved with the decoded server
SDP when decoding yields one, and failed with "Empty server SDP" when
the SDP is missing or empty. -/
theorem C6_avatar_connecting_event (s : SessionState) (e : List (String × PyVal))
    (htype : pyGetStr e "type" = some "session.avatar.connecting") :
    handleUpstreamEvent s e = handleAvatarConnecting s e ∧
    (handleAvatarConnecting s e).broadcastLog =
      s.broadcastLog ++ [[("type", PyVal.pstr "avatar_connecting")]] ∧
    ∀ i, s.avatarFuture = some i → s.futures.get? i = some FutureState.pending →
      (∀ d, _decode_server_sdp (serverSdpOf e) = some d →
        (handleAvatarConnecting s e).futures.get? i = some (FutureState.resolved d)) ∧
      (_decode_server_sdp (serverSdpOf e) = none →
        (handleAvatarConnecting s e).futures.get? i =
          some (FutureState.failed "Empty server SDP")) := by
  refine ⟨?_, ?_, ?_⟩
  · rw [handleUpstreamEvent,
      if_neg (show ¬_ from by rw [htype]; decide),
      if_neg (show ¬_ from by rw [htype]; decide),
      if_neg (show ¬_ from by rw [htype]; decide),
      if_neg (show ¬_ from by rw [htype]; decide),
      if_neg (show ¬_ from by rw [htype]; decide),
      if_neg (show ¬_ from by rw [htype]; decide),
      if_neg (show ¬_ from by rw [htype]; decide),
      if_neg (show ¬_ from by rw [htype]; decide),
      if_neg (show ¬_ from by rw [htype]; decide),
      if_pos htype]
  · simp only [handleAvatarConnecting]
    repeat' split
    all_goals rfl
  · intro i hf hp
    constructor
    · intro d hd
      simp only [handleAvatarConnecting, hf, hd]
      rw [if_pos hp]
      show (s.futures.set i (FutureState.resolved d)).get? i = some (FutureState.resolved d)
      exact listSetGetSelf _ _ _ (listGetSomeLt _ _ _ hp)
    · intro hd
      simp only [handleAvatarConnecting, hf, hd]
      rw [if_pos hp]
      show (s.futures.set i (FutureState.failed "Empty server SDP")).get? i =
        some (FutureState.failed "Empty server SDP")
      exact listSetGetSelf _ _ _ (listGetSomeLt _ _ _ hp)

def c6WitnessState : SessionState :=
  { initialSession "voice" "en-IN" [] with
    ws := some WsState.OPEN, receiveTask := true, connectedEvent := true,
    avatarFuture := some 0, futures := [FutureState.pending],
    listeners := [⟨200, []⟩] }

def c6WitnessEvent : List (String × PyVal) :=
  [("type", PyVal.pstr "session.avatar.connecting"),
   ("server_sdp", PyVal.pstr "v=0 test")]

theorem C6_avatar_connecting_event_witness :
    handleUpstreamEvent c6WitnessState c6WitnessEvent =
      handleAvatarConnecting c6WitnessState c6WitnessEvent ∧
    (handleAvatarConnecting c6WitnessState c6WitnessEvent).broadcastLog =
      [[("type", PyVal.pstr "avatar_connecting")]] ∧
    (handleAvatarConnecting c6WitnessState c6WitnessEvent).futures.get? 0 =
      some (FutureState.resolved "v=0 test") := by
  obtain ⟨h1, h2, h3⟩ :=
    C6_avatar_connecting_event c6WitnessState c6WitnessEvent (by decide)
  exact ⟨h1, h2, (h3 0 rfl rfl).1 "v=0 test" (by decide)⟩

/-- The upstream event types the spec's dispatch table lists. -/
def specListedTypes : List String :=
  ["error", "response.audio.delta", "response.audio.done",
   "response.audio_transcript.delta", "response.audio_transcript.done",
   "conversation.item.input_audio_transcription.completed",
   "input_audio_buffer.speech_started", "input_audio_buffer.speech_stopped",
   "input_audio_buffer.committed", "session.avatar.connecting",
   "session.avatar.connected", "session.avatar.disconnected", "response.done"]

/-- The upstream event types the receive loop actually treats specially:
the spec's table plus the two language/transcription-delta extensions the
code also handles. -/
def handledEventTypes : List String :=
  specListedTypes ++
  ["input_audio_buffer.language_detected",
   "conversation.item.input_audio_transcription.delta"]

/-- The type tag of the event most recently broadcast to listeners. -/
def lastBroadcastType (s : SessionState) : Option String :=
  match s.broadcastLog.getLast? with
  | some e2 => pyGetStr e2 "type"
  | none => none

/-- C9 counterexample: `input_audio_buffer.language_detected` is not in
the spec's dispatch table, yet the receive loop does not pass it through
as a wrapped `event` — it broadcasts a `language_detected` event. -/
theorem C9_passthrough_counterexample :
    (∀ t ∈ specListedTypes,
      pyGetStr [("type", PyVal.pstr "input_audio_buffer.language_detected")] "type" ≠
        some t) ∧
    lastBroadcastType (handleUpstreamEvent (initialSession "voice" "en-IN" [])
      [("type", PyVal.pstr "input_audio_buffer.language_detected")]) =
      some "language_detected" ∧
    lastBroadcastType (_broadcast (initialSession "voice" "en-IN" [])
      (evPassthrough [("type", PyVal.pstr "input_audio_buffer.language_detected")])) =
      some "event" :=
  ⟨by decide, rfl, rfl⟩

/-- C9 (amended): for every inbound upstream event whose type is not one
of the types the receive loop handles specially — the spec's table plus
`input_audio_buffer.language_detected` and
`conversation.item.input_audio_transcription.delta` — the loop broadcasts
exactly one normalized event of type `event` wrapping the raw payload. -/
theorem C9_passthrough_default (s : SessionState) (e : List (String × PyVal))
    (h : ∀ t ∈ handledEventTypes, pyGetStr e "type" ≠ some t) :
    handleUpstreamEvent s e = _broadcast s (evPassthrough e) := by
  rw [handleUpstreamEvent,
    if_neg (h "error" (by decide)),
    if_neg (h "response.audio.delta" (by decide)),
    if_neg (h "response.audio.done" (by decide)),
    if_neg (h "response.audio_transcript.delta" (by decide)),
    if_neg (h "response.audio_transcript.done" (by decide)),
    if_neg (h "conversation.item.input_audio_transcription.completed" (by decide)),
    if_neg (h "input_audio_buffer.speech_started" (by decide)),
    if_neg (h "input_audio_buffer.speech_stopped" (by decide)),
    if_neg (h "input_audio_buffer.committed" (by decide)),
    if_neg (h "session.avatar.connecting" (by decide)),
    if_neg (h "session.avatar.connected" (by decide)),
    if_neg (h "session.avatar.disconnected" (by decide)),
    if_neg (h "input_audio_buffer.language_detected" (by decide)),
    if_neg (h "conversation.item.input_audio_transcription.delta" (by decide)),
    if_neg (h "response.done" (by decide))]

theorem C9_passthrough_default_witness :
    handleUpstreamEvent (initialSession "voice" "en-IN" [])
      [("type", PyVal.pstr "session.created")] =
      _broadcast (initialSession "voice" "en-IN" [])
        (evPassthrough [("type", PyVal.pstr "session.created")]) :=
  C9_passthrough_default (initialSession "voice" "en-IN" [])
    [("type", PyVal.pstr "session.created")] (by decide)

def c1Machine0 : Machine :=
  { sess := { initialSession "voice" "en-IN" [] with
      ws := some WsState.OPEN, receiveTask := true, connectedEvent := true },
    tasks := [⟨"sdpA", AvatarPC.start⟩, ⟨"sdpB", AvatarPC.start⟩] }

def c1Event : List (String × PyVal) :=
  [("type", PyVal.pstr "session.avatar.connecting"),
   ("server_sdp", PyVal.pstr "v=0 answer")]

/-- C1: two `connect_avatar` calls in quick succession.  The second call
cancels the first pending future and sends its own
`session.avatar.connect` carrying the second caller's SDP, and the first
caller unwinds with the cancellation failure — so far as the claim says.
But the first caller's `finally` block then sets the shared
`_avatar_future` slot to `None`, so when the upstream
`session.avatar.connecting` answer arrives the receive loop finds no
pending future: the second caller's future stays pending forever and its
negotiation can only end in the 30-second timeout — the claim's "the
second caller's negotiation can still be resolved by a later
`session.avatar.connecting` event" fails on this trace. -/
theorem C1_supersede_trace :
    ∃ m1 m2 m3 m4 m5,
      stepF (StepLabel.avatarStart 0) c1Machine0 = some m1 ∧
      stepF (StepLabel.avatarStart 1) m1 = some m2 ∧
      stepF (StepLabel.avatarResume 0) m2 = some m3 ∧
      stepF (StepLabel.recv c1Event) m3 = some m4 ∧
      stepF (StepLabel.avatarTimeout 1) m4 = some m5 ∧
      m2.sess.sent.countP (fun fr => fr.etype == "session.avatar.connect") = 2 ∧
      m2.sess.sent.get? 1 =
        some ⟨"session.avatar.connect", avatarConnectPayload "sdpB"⟩ ∧
      m2.sess.futures.get? 0 = some FutureState.cancelled ∧
      m3.tasks.get? 0 =
        some ⟨"sdpA", AvatarPC.done (Except.error "Avatar connection was cancelled")⟩ ∧
      m3.sess.avatarFuture = none ∧
      m4.sess.futures.get? 1 = some FutureState.pending ∧
      m4.sess.avatarFuture = none ∧
      m4.tasks.get? 1 = some ⟨"sdpB", AvatarPC.awaitFut 1⟩ ∧
      m5.tasks.get? 1 = some ⟨"sdpB", AvatarPC.done (Except.error
        "Avatar connection timed out - Azure Voice Live did not respond")⟩ :=
  ⟨_, _, _, _, _, rfl, rfl, rfl, rfl, rfl, rfl, rfl, rfl, rfl, rfl, rfl, rfl, rfl, rfl⟩
